import Mathlib

/-!
Verification development for the cognitive dialogue engine of the Verso
reflection app.  The TypeScript sources `src/lib/engine/runEngine.ts` and
`src/app/api/reframe/route.ts` are shallowly embedded below: strings are
lists of characters, the two model calls and the external crisis checker
are oracle parameters, and every lexical heuristic (substring banks,
word-boundary tests, the sanitizer pipeline) is translated function by
function from the source.
-/

set_option linter.unusedVariables false

namespace VersoEngine

/-- Strings are modelled as lists of characters (`String.toList`). -/
abbrev Str := List Char

/-- JS `toLowerCase`, character by character. -/
def lowerL (s : Str) : Str := s.map Char.toLower

/-- The whitespace characters relevant to JS `\s` and `trim` in this code base. -/
def isWS (c : Char) : Bool := c = ' ' || c = '\t' || c = '\n' || c = '\r'

/-- Decidable prefix test: `isPrefixB needle hay` is `needle <+: hay`. -/
def isPrefixB : Str → Str → Bool
  | [], _ => true
  | _ :: _, [] => false
  | a :: as, b :: bs => a == b && isPrefixB as bs

/-- JS `hay.includes(needle)`: substring occurrence. -/
def containsB : Str → Str → Bool
  | [], needle => needle.isEmpty
  | c :: rest, needle => isPrefixB needle (c :: rest) || containsB rest needle

/-- Membership of a string in a list of strings, by computation. -/
def memB (x : Str) (l : List Str) : Bool := l.any (fun y => y == x)

/-- JS `.trim()`. -/
def trimChars (s : Str) : Str := ((s.dropWhile isWS).reverse.dropWhile isWS).reverse

/-- JS `.replace(/\s+/g, ' ')`: collapse every whitespace run to one space.
`inRun` records whether the previous character was whitespace, so that the
recursion is structural (and kernel-reducible). -/
def collapseAux : Bool → Str → Str
  | _, [] => []
  | inRun, c :: rest =>
    if isWS c then
      if inRun then collapseAux true rest else ' ' :: collapseAux true rest
    else c :: collapseAux false rest

def collapseWS (s : Str) : Str := collapseAux false s

/-- `normalizeForCompare` from `route.ts`: lowercase, collapse whitespace, trim. -/
def normalizeForCompare (s : Str) : Str := trimChars (collapseWS (lowerL s))

/-- First segment of JS `s.split(/[.!?]\s/)`: everything before the first
sentence-punctuation character that is followed by a whitespace character. -/
def sentPunct (c : Char) : Bool := c = '.' || c = '!' || c = '?'

def firstSeg : Str → Str
  | [] => []
  | a :: rest =>
    if sentPunct a && (rest.head?.elim false isWS) then []
    else a :: firstSeg rest

/-- Full JS `s.split(/[.!?]\s/)` (the separator, two characters, is removed). -/
def splitSents : Str → List Str
  | [] => [[]]
  | [a] => [[a]]
  | a :: b :: rest =>
    if sentPunct a && isWS b then
      [] :: splitSents rest
    else
      match splitSents (b :: rest) with
      | [] => [[a]]
      | h :: t => (a :: h) :: t

/-- JS string truthiness: a string is truthy iff nonempty. -/
def strTruthy (s : Str) : Bool := !s.isEmpty

/-- `(x as string) || d` on an optional string field: absent or empty falls
back to the default. -/
def getDS (o : Option Str) (d : Str) : Str :=
  match o with
  | none => d
  | some s => if s.isEmpty then d else s

/-- `typeof x === 'string' && x.trim()` truthiness on an optional field. -/
def strFieldNonBlank (o : Option Str) : Bool :=
  match o with
  | none => false
  | some s => !(trimChars s).isEmpty

/-- JS `slice(-n)`: the last `n` elements. -/
def takeLastN (l : List Str) (n : Nat) : List Str := l.drop (l.length - n)

-- ## Basic facts about the primitives

theorem isPrefixB_iff : ∀ (n h : Str), isPrefixB n h = true ↔ n <+: h
  | [], h => by simp [isPrefixB]
  | a :: as, [] => by simp [isPrefixB]
  | a :: as, b :: bs => by
    simp only [isPrefixB, Bool.and_eq_true, beq_iff_eq, List.cons_prefix_cons]
    exact and_congr_right fun _ => isPrefixB_iff as bs

theorem containsB_iff : ∀ (h n : Str), containsB h n = true ↔ n <:+: h
  | [], n => by
    simp only [containsB, List.isEmpty_iff, List.infix_nil]
  | c :: rest, n => by
    simp only [containsB, Bool.or_eq_true, isPrefixB_iff, containsB_iff rest n,
      List.infix_cons_iff]

theorem containsB_of_inf {h₁ h₂ n : Str} (sub : h₁ <:+: h₂)
    (hc : containsB h₁ n = true) : containsB h₂ n = true :=
  (containsB_iff h₂ n).2 (((containsB_iff h₁ n).1 hc).trans sub)

theorem trimChars_inf (s : Str) : trimChars s <:+: s := by
  have h₁ : s.dropWhile isWS <:+ s := List.dropWhile_suffix isWS
  have h₂ : (s.dropWhile isWS).reverse.dropWhile isWS <:+ (s.dropWhile isWS).reverse :=
    List.dropWhile_suffix isWS
  have h₃ : trimChars s <+: s.dropWhile isWS := by
    apply List.reverse_suffix.1
    simpa [trimChars] using h₂
  exact h₃.isInfix.trans h₁.isInfix

theorem firstSeg_pref : ∀ s : Str, firstSeg s <+: s
  | [] => List.prefix_refl _
  | a :: rest => by
    unfold firstSeg
    by_cases h : (sentPunct a && (rest.head?.elim false isWS)) = true
    · simp [h]
    · rw [if_neg h]
      exact (List.cons_prefix_cons).2 ⟨rfl, firstSeg_pref rest⟩

theorem memB_iff (x : Str) (l : List Str) : memB x l = true ↔ x ∈ l := by
  simp [memB]

/-- Shorthand for embedding concrete JS string literals. -/
def S (s : String) : Str := s.toList

-- ## Word-boundary matching (JS `\b...\b` regexes over literal alternatives)

/-- JS regex word character (`\w`). -/
def isWordChar (c : Char) : Bool :=
  ('a' ≤ c && c ≤ 'z') || ('A' ≤ c && c ≤ 'Z') || ('0' ≤ c && c ≤ '9') || c = '_'

/-- The literal `w` matches at the front of `s` with a word boundary after it. -/
def wordHere (w s : Str) : Bool :=
  isPrefixB w s && ((s.drop w.length).head?.elim true (fun c => !isWordChar c))

/-- Scan for `\bw\b`, tracking the previous character for the left boundary. -/
def containsWordAux (w : Str) : Option Char → Str → Bool
  | _, [] => false
  | prev, c :: rest =>
    ((prev.elim true (fun p => !isWordChar p)) && wordHere w (c :: rest)) ||
      containsWordAux w (some c) rest

/-- `\bw\b` occurs somewhere in `s` (`s` already lowercased by the caller). -/
def containsWord (s w : Str) : Bool := containsWordAux w none s

-- ## Data model (`runEngine.ts` / `route.ts` interfaces)

inductive Role where
  | user
  | assistant
deriving DecidableEq, Repr

structure ChatMessage where
  role : Role
  content : Str
deriving DecidableEq, Repr

inductive Intent where
  | AUTO
  | CALM
  | CLARITY
  | NEXT_STEP
  | MEANING
  | LISTEN
deriving DecidableEq, Repr

/-- `lastQuestionType: 'choice' | 'open' | ''`. -/
inductive QType where
  | choice
  | openQ
  | blank
deriving DecidableEq, Repr

/-- `SessionContext` (all fields optional, as in the TypeScript interface;
the unused `previousAcknowledgments`/`previousEncouragements` are omitted). -/
structure SessionContext where
  previousTopics : Option (List Str) := none
  previousDistortions : Option (List Str) := none
  sessionCount : Option Nat := none
  previousQuestions : Option (List Str) := none
  previousReframes : Option (List Str) := none
  originalTrigger : Option Str := none
  coreBeliefAlreadyDetected : Option Bool := none
  groundingMode : Option Bool := none
  groundingTurns : Option Int := none
  lastQuestionType : Option QType := none
  userIntent : Option Intent := none
deriving DecidableEq, Repr

/-- `AnalysisResult`: the fields the model's first call is cast to.  A field
may be absent when the model returned a partial object. -/
structure AnalysisO where
  trigger_event : Option Str := none
  likely_interpretation : Option Str := none
  underlying_fear : Option Str := none
  emotional_need : Option Str := none
  core_wound : Option Str := none
deriving DecidableEq, Repr

/-- The fallback `AnalysisResult` used when the analysis call fails. -/
def defaultAnalysis : AnalysisO :=
  { trigger_event := some (S "Something happened that triggered a reaction")
    likely_interpretation := some (S "This situation has meaning to them")
    underlying_fear := some (S "There's a fear underneath")
    emotional_need := some (S "Understanding") }

inductive EffectiveLayer where
  | SURFACE
  | TRANSITION
  | EMOTION
  | CORE_WOUND
deriving DecidableEq, Repr

inductive CogState where
  | REGULATE
  | CLARIFY
  | MAP
  | RESTRUCTURE
  | PLAN
  | PRESENCE
deriving DecidableEq, Repr

inductive Intervention where
  | GROUND
  | SEPARATE_FACTS
  | REFLECT_MAP
  | CBT_REFRAME
  | TINY_PLAN
  | VALIDATE_ONLY
deriving DecidableEq, Repr

/-- `EngineDecision` (the `reasons` observability strings, which interpolate
formatted numbers, are not modelled). -/
structure EngineDecision where
  state : CogState
  intervention : Intervention
  confidence : ℚ
  askQuestion : Bool
deriving DecidableEq, Repr

def clamp01 (q : ℚ) : ℚ := max 0 (min 1 q)

-- ## Lexical detectors (`runEngine.ts`)

def thanksMarkers : List Str :=
  [S "thanks", S "thank you", S "i feel better", S "feeling better",
   S "a little better", S "ok now", S "i’m okay", S "i'm okay",
   S "that helped", S "this helped"]

def detectThanksOrResolution (text : Str) : Bool :=
  thanksMarkers.any (containsB (lowerL text))

def actionMarkers : List Str :=
  [S "what should i do", S "what do i do", S "next step", S "how do i",
   S "help me", S "plan", S "steps", S "what now"]

def detectActionRequest (text : Str) : Bool :=
  actionMarkers.any (containsB (lowerL text))

def floodIndicators : List Str :=
  [S "i don't know", S "dont know", S "can't recall", S "cant recall",
   S "can't pinpoint", S "cant pinpoint", S "not sure", S "idk",
   S "whatever", S "nothing", S "blank", S "mind is blank",
   S "i can't think", S "too much", S "overwhelmed"]

/-- `userSeemsFlooded` (textually identical in `runEngine.ts` and `route.ts`). -/
def userSeemsFlooded (text : Str) : Bool :=
  floodIndicators.any (containsB (trimChars (lowerL text)))

def arousalMarkers : List Str :=
  [S "panic", S "panicking", S "super anxious", S "very anxious", S "anxious",
   S "can't breathe", S "cant breathe", S "heart racing", S "overwhelmed",
   S "all-consuming", S "spiraling", S "i can't handle", S "i cant handle",
   S "i feel sick", S "terrified", S "scared", S "shaking"]

/-- `(text.match(/!/g) || []).length`. -/
def exclCount (text : Str) : Nat := (text.filter (fun c => c = '!')).length

/-- `detectHighArousal` from `runEngine.ts`: the marker count and the two
half-point bonuses are accumulated into one score, and the *whole* score is
divided by 3 before clamping. -/
def detectHighArousal (text : Str) : ℚ :=
  let s := lowerL text
  let base : ℚ := arousalMarkers.foldl (fun sc m => if containsB s m then sc + 1 else sc) 0
  let sc1 : ℚ := if 2 ≤ exclCount text then base + 1/2 else base
  let sc2 : ℚ :=
    if 180 < text.length && (containsB s (S "everything") || containsB s (S "nothing"))
    then sc1 + 1/2 else sc1
  clamp01 (sc2 / 3)

def absolutistWords : List Str :=
  [S "always", S "never", S "everyone", S "no one", S "nothing", S "everything"]

def catastrophicWords : List Str :=
  [S "worst", S "ruin", S "disaster", S "fired", S "hopeless", S "pointless"]

def shouldWords : List Str := [S "should", S "must", S "have to"]

def mindReadWords : List Str :=
  [S "they think", S "they’ll think", S "they will think"]

def detectDistortionLikelihood (text : Str) : ℚ :=
  let s := lowerL text
  let s1 : ℚ := if absolutistWords.any (containsWord s) then 0 + 2/5 else 0
  let s2 : ℚ := if catastrophicWords.any (containsWord s) then s1 + 2/5 else s1
  let s3 : ℚ := if shouldWords.any (containsWord s) then s2 + 1/4 else s2
  let s4 : ℚ := if mindReadWords.any (containsWord s) then s3 + 1/4 else s3
  clamp01 s4

/-- `decideEngineState`: the ordered rule cascade (first match wins). -/
def decideEngineState (userText : Str) (analysis : AnalysisO) (intent : Intent)
    (groundingMode : Bool) : EngineDecision :=
  if groundingMode || intent = Intent.CALM then
    { state := .REGULATE, intervention := .GROUND, confidence := 17/20, askQuestion := false }
  else if intent = Intent.LISTEN then
    { state := .PRESENCE, intervention := .VALIDATE_ONLY, confidence := 17/20, askQuestion := false }
  else if detectThanksOrResolution userText then
    { state := .PRESENCE, intervention := .VALIDATE_ONLY, confidence := 3/4, askQuestion := false }
  else
    let highArousal := detectHighArousal userText
    let flooded := userSeemsFlooded userText
    if 3/5 ≤ highArousal || flooded then
      { state := .REGULATE, intervention := .GROUND, confidence := 4/5, askQuestion := false }
    else if intent = Intent.NEXT_STEP || detectActionRequest userText then
      { state := .PLAN, intervention := .TINY_PLAN, confidence := 3/4, askQuestion := true }
    else if intent = Intent.CLARITY then
      { state := .CLARIFY, intervention := .SEPARATE_FACTS, confidence := 4/5, askQuestion := true }
    else if intent = Intent.MEANING then
      { state := .MAP, intervention := .REFLECT_MAP, confidence := 3/4, askQuestion := true }
    else if 3/5 ≤ detectDistortionLikelihood userText then
      { state := .RESTRUCTURE, intervention := .CBT_REFRAME, confidence := 7/10, askQuestion := true }
    else
      { state := .MAP, intervention := .REFLECT_MAP, confidence := 13/20, askQuestion := true }

-- ## Intent + grounding helpers (identical in both files up to one phrase)

/-- `resolveIntent`: explicit intent or `AUTO` (the TypeScript union type
already excludes out-of-set strings). -/
def resolveIntent (ctx : Option SessionContext) : Intent :=
  (ctx.bind (·.userIntent)).getD Intent.AUTO

/-- Grounding indicators of `runEngine.ts` (no "ice cream"). -/
def groundingIndicatorsE : List Str :=
  [S "grounding", S "something grounding", S "shift toward", S "take a break",
   S "step back", S "pause", S "reset", S "comfort", S "something calming",
   S "gentle", S "coffee", S "walk", S "tea", S "breathe", S "small thing",
   S "tiny step", S "practical step"]

/-- Grounding indicators of `route.ts` (adds "ice cream"). -/
def groundingIndicatorsR : List Str :=
  [S "grounding", S "something grounding", S "shift toward", S "take a break",
   S "step back", S "pause", S "reset", S "comfort", S "something calming",
   S "gentle", S "ice cream", S "coffee", S "walk", S "tea", S "breathe",
   S "small thing", S "tiny step", S "practical step"]

def userChoseGroundingE (text : Str) : Bool :=
  groundingIndicatorsE.any (containsB (trimChars (lowerL text)))

def userChoseGroundingR (text : Str) : Bool :=
  groundingIndicatorsR.any (containsB (trimChars (lowerL text)))

/-- `isInGroundingMode` from `runEngine.ts`. -/
def isInGroundingModeE (ctx : Option SessionContext) (userText : Str) : Bool × Int :=
  let justChoseGrounding := userChoseGroundingE userText
  let wasInGroundingMode := (ctx.bind (·.groundingMode)).getD false
  let previousTurns := (ctx.bind (·.groundingTurns)).getD 0
  if justChoseGrounding then (true, 1)
  else if wasInGroundingMode && previousTurns < 3 then (true, previousTurns + 1)
  else (false, 0)

/-- `isInGroundingMode` from `route.ts` (same machine, route phrase list). -/
def isInGroundingModeR (ctx : Option SessionContext) (userText : Str) : Bool × Int :=
  let justChoseGrounding := userChoseGroundingR userText
  let wasInGroundingMode := (ctx.bind (·.groundingMode)).getD false
  let previousTurns := (ctx.bind (·.groundingTurns)).getD 0
  if justChoseGrounding then (true, 1)
  else if wasInGroundingMode && previousTurns < 3 then (true, previousTurns + 1)
  else (false, 0)

-- ## Permissive JSON parsing (`parseAIJSON`, identical in both files)

/-- The three JS outcomes of `parseAIJSON`: a parsed value, `null`, or the
implicit `undefined` of falling off the end of the function. -/
inductive JParse (α : Type) where
  | obj (v : α)
  | nul
  | undef
deriving DecidableEq, Repr

def JParse.toOption {α : Type} : JParse α → Option α
  | .obj v => some v
  | _ => none

/-- Global replacement of a fixed nonempty pattern by the empty string
(JS `replace(/pat/g, '')`), structurally recursive on a fuel bound that the
wrapper sets to the text's length (each step consumes at least one
character, so the fuel is never exhausted). -/
def replaceAllF (p0 : Char) (ps : Str) : Nat → Str → Str
  | 0, s => s
  | _ + 1, [] => []
  | fuel + 1, c :: rest =>
    if isPrefixB (p0 :: ps) (c :: rest) then replaceAllF p0 ps fuel (rest.drop ps.length)
    else c :: replaceAllF p0 ps fuel rest

def replaceAllStr (pat s : Str) : Str :=
  match pat with
  | [] => s
  | p0 :: ps => replaceAllF p0 ps s.length s

/-- Case-insensitive prefix test against a lowercase pattern. -/
def isPrefixCI : Str → Str → Bool
  | [], _ => true
  | _ :: _, [] => false
  | a :: as, b :: bs => a == b.toLower && isPrefixCI as bs

/-- Case-insensitive global replacement (JS `replace(/pat/gi, '')`). -/
def replaceAllCIF (p0 : Char) (ps : Str) : Nat → Str → Str
  | 0, s => s
  | _ + 1, [] => []
  | fuel + 1, c :: rest =>
    if isPrefixCI (p0 :: ps) (c :: rest) then replaceAllCIF p0 ps fuel (rest.drop ps.length)
    else c :: replaceAllCIF p0 ps fuel rest

def replaceAllCIStr (pat s : Str) : Str :=
  match pat with
  | [] => s
  | p0 :: ps => replaceAllCIF p0 ps s.length s

def idxOf (c : Char) : Str → Option Nat
  | [] => none
  | a :: rest => if a == c then some 0 else (idxOf c rest).map (· + 1)

def lastIdxOf (c : Char) (s : Str) : Option Nat :=
  (idxOf c s.reverse).map (fun i => s.length - 1 - i)

def lbrace : Char := Char.ofNat 123
def rbrace : Char := Char.ofNat 125

/-- JS `cleaned.match(/\x7b[\s\S]*\x7d/)`: the span from the first opening to
the last closing brace, when the latter comes after the former. -/
def extractBraces (s : Str) : Option Str :=
  match idxOf lbrace s, lastIdxOf rbrace s with
  | some i, some j => if i < j then some ((s.drop i).take (j - i + 1)) else none
  | _, _ => none

/-- `parseAIJSON`, with the platform `JSON.parse` as the oracle `jp`
(`jp x = none` models a parse exception).  Mirrors the nested try/catch of
the source: direct parse, else strip code fences and extract the first
brace span; a parse failure there returns `null`, but when no brace span
exists the function falls off its end (JS `undefined`). -/
def parseAIJSONg {α : Type} (jp : Str → Option α) (content : Str) : JParse α :=
  match jp content with
  | some v => JParse.obj v
  | none =>
    let cleaned := trimChars (replaceAllStr (S "```") (replaceAllCIStr (S "```json") content))
    match extractBraces cleaned with
    | some m =>
      match jp m with
      | some v => JParse.obj v
      | none => JParse.nul
    | none => JParse.undef

/-- The response-object fields that `route.ts`/`runEngine.ts` read from the
model's parsed JSON (a missing or non-string field is `none`). -/
structure ParsedResp where
  acknowledgment : Option Str := none
  thoughtPattern : Option Str := none
  patternNote : Option Str := none
  reframe : Option Str := none
  question : Option Str := none
  encouragement : Option Str := none
  distortionType : Option Str := none
  distortionExplanation : Option Str := none
  layerInsight : Option Str := none
  probingQuestion : Option Str := none
  icebergLayer : Option Str := none
deriving DecidableEq, Repr

def emptyParsed : ParsedResp := {}

-- ## Duplicate checks (`route.ts`)

def isDuplicateReframe (reframe : Str) (previousReframes : List Str) : Bool :=
  memB (normalizeForCompare reframe) (previousReframes.map normalizeForCompare)

def isDuplicateQuestion (question : Str) (previousQuestions : List Str) : Bool :=
  memB (normalizeForCompare question) (previousQuestions.map normalizeForCompare)

def isDuplicatePatternNote (note : Str) (previousNotes : List Str) : Bool :=
  memB (normalizeForCompare note) (previousNotes.map normalizeForCompare)

-- ## Identity-statement remapping (`adjustDistortionForIdentityStatement`)

def latinLower (c : Char) : Bool := 'a' ≤ c && c ≤ 'z'

/-- Tail of the anchored identity regexes: `[a-z]+\.?$`. -/
def anchoredTail (w : Str) : Bool :=
  (!w.isEmpty && w.all latinLower) ||
  (w.getLast? == some '.' && !(w.dropLast).isEmpty && (w.dropLast).all latinLower)

def anchoredIdentity (pre : Str) (s : Str) : Bool :=
  isPrefixB pre s && anchoredTail (s.drop pre.length)

def identityAlts : List Str :=
  [S "undesirable", S "unlovable", S "worthless", S "hopeless", S "broken",
   S "a failure", S "a fraud", S "a burden", S "a mess", S "a loser",
   S "a disappointment"]

/-- The `identityPatterns` bank: four anchored whole-string forms and two
unanchored `i am`/`i'?m` + keyword alternations, all case-insensitive. -/
def identityStatement (userText : Str) : Bool :=
  let s := lowerL userText
  anchoredIdentity (S "i am ") s || anchoredIdentity (S "i'm ") s ||
  anchoredIdentity (S "im ") s ||
  anchoredIdentity (S "i am not ") s || anchoredIdentity (S "i'm not ") s ||
  anchoredIdentity (S "im not ") s ||
  identityAlts.any (fun a => containsB s (S "i am " ++ a)) ||
  identityAlts.any (fun a => containsB s (S "i'm " ++ a) || containsB s (S "im " ++ a))

def adjustDistortionForIdentityStatement (userText : Str) (effectiveLayer : EffectiveLayer)
    (thoughtPattern : Str) : Str :=
  if identityStatement userText ∧ effectiveLayer ≠ EffectiveLayer.CORE_WOUND then S "Labeling"
  else thoughtPattern

-- ## Repeated-effort detection (`detectRepeatedEffort`)

def effortPatterns : List Str :=
  [S "no matter how much", S "no matter what", S "no matter how hard",
   S "over and over", S "again and again", S "keep trying", S "keeps happening",
   S "nothing works", S "nothing i do", S "always fails", S "never works",
   S "every time", S "each time", S "repeatedly", S "keep failing",
   S "tired of trying", S "sick of trying", S "gave up", S "given up",
   S "nothing ever goes", S "nothing ever works", S "can never",
   S "doesn't matter what", S "does not matter what"]

def detectRepeatedEffort (text : Str) : Bool :=
  effortPatterns.any (containsB (trimChars (lowerL text)))

-- ## Probe detection and question finalization (`route.ts`)

def probeTriggers : List Str :=
  [S "earliest memory", S "when did you first", S "how long have you",
   S "when did this start", S "childhood", S "growing up", S "in your past",
   S "timeline", S "first started feeling", S "memory you have of",
   S "where did you learn", S "what happened when you were",
   S "where in your body", S "where do you feel it", S "where in your head",
   S "pin point", S "pinpoint", S "describe where",
   S "chapter", S "ending", S "story"]

def isTherapistProbe (q : Str) : Bool :=
  let s := trimChars (lowerL q)
  probeTriggers.any (containsB s) || wordHere (S "when did") s

def choiceQuestion : Str := S "Do you want comfort right now, or a tiny practical step?"

def isChoiceQuestionText (q : Str) : Bool :=
  let s := lowerL q
  if s.isEmpty then false
  else
    containsB s (S "comfort right now") || containsB s (S "tiny practical step") ||
    (containsB s (S "comfort") && containsB s (S "practical")) ||
    (containsB s (S "do you want") && containsB s (S "or"))

def endsWithQm (s : Str) : Bool := s.getLast? == some '?'

/-- `q.split(/[.!?]\s/)[0]?.trim() || q`. -/
def oneSentence (q : Str) : Str :=
  let w := trimChars (firstSeg q)
  if w.isEmpty then q else w

def finalizeQuestion (question : Str) (effectiveLayer : EffectiveLayer) (userText : Str)
    (previousQuestions : List Str) (groundingMode : Bool) (lastQuestionType : QType) : Str :=
  let q := trimChars question
  let flooded := userSeemsFlooded userText
  let probe := if q.isEmpty then false else isTherapistProbe q
  let dup := if q.isEmpty then false else isDuplicateQuestion q previousQuestions
  if groundingMode then
    if q.isEmpty || probe then []
    else
      let one := oneSentence q
      if containsB (lowerL one) (S "explore") || containsB (lowerL one) (S "grounding") ||
         containsB (lowerL one) (S "deeply") then []
      else if endsWithQm one then one else one ++ S "?"
  else
    let isChoiceQ := isChoiceQuestionText q
    if lastQuestionType = QType.choice ∧ isChoiceQ then []
    else if effectiveLayer ≠ EffectiveLayer.CORE_WOUND then
      if q.isEmpty || probe then []
      else
        let one := oneSentence q
        if isDuplicateQuestion one previousQuestions then []
        else if endsWithQm one then one else one ++ S "?"
    else
      if q.isEmpty || probe || dup then (if flooded then choiceQuestion else [])
      else
        let one := oneSentence q
        let out := if endsWithQm one then one else one ++ S "?"
        if isTherapistProbe out then (if flooded then choiceQuestion else []) else out

-- ## Thought-pattern normalization and layer gating (`route.ts`)

def tpTable : List (Str × Str) :=
  [(S "black-and-white", S "All-or-nothing thinking"),
   (S "black and white", S "All-or-nothing thinking"),
   (S "all-or-nothing", S "All-or-nothing thinking"),
   (S "all or nothing", S "All-or-nothing thinking"),
   (S "catastrophizing", S "Catastrophizing"),
   (S "catastrophe", S "Catastrophizing"),
   (S "mind reading", S "Mind reading"),
   (S "mindreading", S "Mind reading"),
   (S "overgeneralization", S "Overgeneralization"),
   (S "over-generalization", S "Overgeneralization"),
   (S "personalization", S "Personalization"),
   (S "labeling", S "Labeling"),
   (S "emotional reasoning", S "Emotional reasoning"),
   (S "should statements", S "Should statements"),
   (S "fortune telling", S "Fortune telling"),
   (S "discounting positives", S "Discounting positives"),
   (S "mental filter", S "Mental filter"),
   (S "jumping to conclusions", S "Jumping to conclusions"),
   (S "core belief", S "Core Belief"),
   (S "identity belief", S "Core Belief")]

def normalizeThoughtPattern (p : Str) : Str :=
  if p.isEmpty then []
  else
    let s := trimChars p
    let lower := lowerL s
    match tpTable.find? (fun kv => containsB lower kv.1) with
    | some kv => kv.2
    | none => s

-- ## Fallback distortion inference (`inferFallbackThoughtPattern`)

def identLabelKeywords : List Str :=
  [S "failure", S "loser", S "mess", S "burden", S "worthless", S "broken",
   S "unlovable", S "undesirable"]

/-- Consume one-or-more whitespace characters (regex `\s+`). -/
def wsPlus : Str → Option Str
  | [] => none
  | c :: rest => if isWS c then some (rest.dropWhile isWS) else none

/-- `(i am|i'm)\s+(a\s+)?(failure|loser|...)` anchored at this position
(`s` already lowercased). -/
def identLabelAt (s : Str) : Bool :=
  let afterPre : Option Str :=
    if isPrefixB (S "i am") s then some (s.drop 4)
    else if isPrefixB (S "i'm") s then some (s.drop 3)
    else none
  match afterPre with
  | none => false
  | some r0 =>
    match wsPlus r0 with
    | none => false
    | some r1 =>
      identLabelKeywords.any (fun k => isPrefixB k r1) ||
      (isPrefixB (S "a") r1 &&
        (match wsPlus (r1.drop 1) with
         | some r2 => identLabelKeywords.any (fun k => isPrefixB k r2)
         | none => false))

def anySuffix (p : Str → Bool) : Str → Bool
  | [] => p []
  | c :: rest => p (c :: rest) || anySuffix p rest

def identLabelMatch (userText : Str) : Bool := anySuffix identLabelAt (lowerL userText)

def ruminationLits : List Str :=
  [S "replay", S "loop", S "can't stop thinking", S "cant stop thinking",
   S "ruminat", S "over and over", S "again and again"]

def catastLits : List Str :=
  [S "ruin", S "disaster", S "everything will", S "i'll be fired",
   S "ill be fired", S "worst case", S "end of the world"]

def allOrNothingWords : List Str :=
  [S "always", S "never", S "everything", S "nothing", S "completely",
   S "totally", S "either", S "only"]

def inferFallbackThoughtPattern (userText : Str) (effectiveLayer : EffectiveLayer) : Str :=
  if effectiveLayer = EffectiveLayer.CORE_WOUND then S "Core Belief"
  else if identLabelMatch userText then S "Labeling"
  else if ruminationLits.any (containsB (lowerL userText)) then S "Rumination"
  else if catastLits.any (containsB (lowerL userText)) then S "Catastrophizing"
  else if allOrNothingWords.any (containsWord (lowerL userText)) then S "All-or-nothing thinking"
  else []

/-- `coerceThoughtPatternByLayer`: "Core Belief" only at CORE_WOUND; at
CORE_WOUND the label is forced. -/
def coerceThoughtPatternByLayer (thoughtPattern : Str) (effectiveLayer : EffectiveLayer) : Str :=
  let p := normalizeThoughtPattern thoughtPattern
  let isCore := lowerL p == S "core belief"
  if effectiveLayer ≠ EffectiveLayer.CORE_WOUND ∧ isCore then S "Catastrophizing"
  else if effectiveLayer = EffectiveLayer.CORE_WOUND then S "Core Belief"
  else p

-- ## Reframe sanitization (`sanitizeReframeAllLayers`)

def metaphorClusterLits : List Str :=
  [S "chapter", S "ending", S "just a story", S "black and white",
   S "spectrum", S "math problem", S "fixed point"]

def coreBannedPhrases : List Str :=
  [S "just a story", S "one chapter", S "not the ending", S "whole truth",
   S "black and white photo", S "spectrum of experiences", S "math problem",
   S "fixed point on a scale"]

def sanitizeReframeAllLayers (reframe : Str) (previousReframes : List Str)
    (analysis : AnalysisO) (effectiveLayer : EffectiveLayer) : Str :=
  let r := trimChars reframe
  let coreWound := lowerL (getDS analysis.core_wound [])
  let underlyingFear := lowerL (getDS analysis.underlying_fear [])
  let isAbandonment :=
    containsB coreWound (S "love") || containsB coreWound (S "alon") ||
    containsB coreWound (S "leave") || containsB coreWound (S "want") ||
    containsB underlyingFear (S "love") || containsB underlyingFear (S "alon")
  let isFailure :=
    containsB coreWound (S "fail") || containsB coreWound (S "enough") ||
    containsB underlyingFear (S "fail") || containsB underlyingFear (S "enough")
  if r.isEmpty then
    if effectiveLayer = EffectiveLayer.CORE_WOUND then
      if isAbandonment then S "That fear is real — but it doesn’t mean you’re unlovable."
      else if isFailure then
        S "Not meeting expectations isn’t proof you’re a disappointment — it’s pressure talking."
      else
        S "A painful moment can shake your confidence — but it still doesn’t get to decide your worth."
    else if isAbandonment then S "That fear is loud right now, but it isn’t the whole truth about you."
    else if isFailure then
      S "This feels like a verdict, but it’s still a thought under stress — not a final fact."
    else S "The feeling is real — but the conclusion might be harsher than the facts support."
  else
    let cur := normalizeForCompare r
    let prev := previousReframes.map normalizeForCompare
    let startsWhatIf := isPrefixB (S "what if") cur
    let alreadyUsedWhatIf := prev.any (fun x => isPrefixB (S "what if") x)
    if startsWhatIf && alreadyUsedWhatIf then
      if isAbandonment || effectiveLayer = EffectiveLayer.CORE_WOUND then
        S "That fear is real — but it doesn’t mean you’re unlovable or alone forever."
      else S "The feeling is real, but the conclusion may be harsher than the facts."
    else
      let prevHasCluster := prev.any (fun x => metaphorClusterLits.any (containsB x))
      if metaphorClusterLits.any (containsB (lowerL r)) && prevHasCluster then
        S "Let’s keep this simple: the feeling is real, but the label you’re putting on yourself may be harsher than the facts."
      else if effectiveLayer = EffectiveLayer.CORE_WOUND ∧
          coreBannedPhrases.any (containsB (lowerL r)) then
        S "This belief is your brain trying to protect you from getting hurt again — but it isn’t a verdict on you."
      else r

-- ## Pattern-note compacting (`compactOneSentence`, `compactTwoSentences`)

def endsSentPunct (s : Str) : Bool := s.getLast?.elim false sentPunct

def compactOneSentence (text : Str) : Str :=
  let t := trimChars text
  if t.isEmpty then []
  else
    let one := let w := trimChars (firstSeg t); if w.isEmpty then t else w
    if endsSentPunct one then one else one ++ S "."

def joinDotSpace : List Str → Str
  | [] => []
  | [x] => x
  | x :: rest => x ++ S ". " ++ joinDotSpace rest

def compactTwoSentences (text : Str) : Str :=
  let t := trimChars text
  if t.isEmpty then []
  else
    let parts := (splitSents t).filter (fun p => !p.isEmpty)
    let out := trimChars (joinDotSpace (parts.take 2))
    if out.isEmpty then []
    else if endsSentPunct out then out else out ++ S "."

-- ## Output-quality gate (`isGenericLine`, `needsRegeneration`)

def genericLines : List Str :=
  [S "you’re engaging with this", S "that takes real effort",
   S "just talking about it is a step", S "it matters that you’re showing up",
   S "let’s slow it down", S "pressure makes everything feel final",
   S "the feeling is real", S "not a verdict", S "i’m with you",
   S "that makes sense", S "you’re not alone", S "storm inside",
   S "weather this storm"]

def isGenericLine (s : Str) : Bool :=
  let t := normalizeForCompare s
  if t.isEmpty then true
  else if t.length < 12 then true
  else genericLines.any (containsB t)

/-- `needsRegeneration` (its unused `acknowledgment` argument is omitted). -/
def needsRegeneration (reframe question encouragement : Str)
    (previousReframes previousQuestions : List Str) : Bool :=
  let q := trimChars question
  let r := trimChars reframe
  let e := trimChars encouragement
  if !q.isEmpty && isDuplicateQuestion q previousQuestions then true
  else if !r.isEmpty && isDuplicateReframe r previousReframes then true
  else if isGenericLine r then true
  else if !e.isEmpty && isGenericLine e then true
  else if r.isEmpty then true
  else false

-- ## Field helpers shared by `ensureAllLayers`

/-- `typeof x === 'string' && x.trim() ? x : d` (the untrimmed original is kept). -/
def strFieldOr (o : Option Str) (d : Str) : Str :=
  match o with
  | some s => if (trimChars s).isEmpty then d else s
  | none => d

/-- JS truthiness of an optional string. -/
def optTruthy (o : Option Str) : Bool := o.elim false (fun s => !s.isEmpty)

/-- `pool[Math.floor(Math.random() * pool.length)]`, the random draw replaced
by an arbitrary oracle index reduced mod the pool size. -/
def pickR (n : Nat) (pool : List Str) : Str := pool.getD (n % pool.length) []

/-- The three `Math.random()` draws of one `ensureAllLayers` invocation. -/
structure Rnd where
  ack : Nat := 0
  note : Nat := 0
  refr : Nat := 0
deriving DecidableEq, Repr

/-- The object `ensureAllLayers` returns (user-visible plus back-compat fields). -/
structure EnsureResult where
  acknowledgment : Str
  thoughtPattern : Str
  patternNote : Str
  reframe : Str
  question : Str
  encouragement : Str
  content : Str
  distortionType : Str
  distortionExplanation : Str
  probingQuestion : Str
  icebergLayer : Str
  layerInsight : Str
deriving DecidableEq, Repr

def icebergOf (l : EffectiveLayer) : Str :=
  match l with
  | .SURFACE => S "surface"
  | .TRANSITION => S "trigger"
  | .EMOTION => S "emotion"
  | .CORE_WOUND => S "coreBelief"

def labelingSimilar (userText : Str) : Bool :=
  [S "i am", S "i'm", S "i feel like i'm"].any (containsB (lowerL userText))

def catastSimilarWords : List Str :=
  [S "worst", S "ruin", S "disaster", S "end", S "fired"]

def catastSimilar (userText : Str) : Bool :=
  catastSimilarWords.any (containsWord (lowerL userText))

def aonSimilarWords : List Str :=
  [S "always", S "never", S "everything", S "nothing", S "either", S "only",
   S "completely", S "totally"]

def aonSimilar (userText : Str) : Bool :=
  aonSimilarWords.any (containsWord (lowerL userText))

/-- The `aiProvidedPattern` sub-expression of the thought-pattern governance:
the model's own (normalized) label, when it supplied a non-blank one. -/
def aiProvidedPattern (parsed : ParsedResp) : Str :=
  if strFieldNonBlank parsed.thoughtPattern then
    normalizeThoughtPattern (parsed.thoughtPattern.getD [])
  else if strFieldNonBlank parsed.distortionType then
    normalizeThoughtPattern (parsed.distortionType.getD [])
  else []

/-- The thought-pattern governance of `ensureAllLayers` (grounding blanks it;
CORE_WOUND freezes/forces `Core Belief`; otherwise CALM/LISTEN may blank it,
a similar previous label is reused, and the model's label is normalized,
layer-gated and identity-remapped). -/
def ensureThoughtPattern (parsed : ParsedResp) (effectiveLayer : EffectiveLayer)
    (userText : Str) (frozenThoughtPattern previousDistortion : Option Str)
    (groundingMode : Bool) (intent : Intent) : Str :=
  let inferredFallbackPattern :=
    if groundingMode then [] else inferFallbackThoughtPattern userText effectiveLayer
  let rawPatternCandidate :=
    let n := normalizeThoughtPattern (getDS parsed.thoughtPattern (getDS parsed.distortionType []))
    if n.isEmpty then inferredFallbackPattern else n
  let fallthroughPattern : Str :=
    let t :=
      if optTruthy frozenThoughtPattern then
        normalizeThoughtPattern (frozenThoughtPattern.getD [])
      else coerceThoughtPatternByLayer rawPatternCandidate effectiveLayer
    adjustDistortionForIdentityStatement userText effectiveLayer t
  if groundingMode then []
  else if effectiveLayer = EffectiveLayer.CORE_WOUND then
    if optTruthy frozenThoughtPattern then
      normalizeThoughtPattern (frozenThoughtPattern.getD [])
    else S "Core Belief"
  else
    if (intent = Intent.CALM ∨ intent = Intent.LISTEN) ∧ (aiProvidedPattern parsed).isEmpty then []
    else
      match previousDistortion with
      | some pd =>
        if ¬pd.isEmpty ∧ pd ≠ S "Core Belief" then
          let previousIsSimilar :=
            (pd = S "Labeling" ∧ labelingSimilar userText) ∨
            (pd = S "Catastrophizing" ∧ catastSimilar userText) ∨
            (pd = S "All-or-nothing thinking" ∧ aonSimilar userText)
          if previousIsSimilar then pd else fallthroughPattern
        else fallthroughPattern
      | none => fallthroughPattern

/-- The fixed duplicate-replacement lines of `ensureAllLayers`. -/
def dupReplacementGrounding : Str := S "Let’s take one small breath here."
def dupReplacementPause : Str :=
  S "Let’s pause for a second — this is feeling more final than it actually is."

/-- The reframe pipeline of `ensureAllLayers`: model text (or the canned
fallback), then `sanitizeReframeAllLayers`, then the duplicate replacement. -/
def ensureReframe (parsedReframe : Option Str) (fallbackReframe : Str)
    (previousReframes : List Str) (analysis : AnalysisO)
    (effectiveLayer : EffectiveLayer) (groundingMode : Bool) : Str :=
  let reframe1 :=
    sanitizeReframeAllLayers (getDS parsedReframe fallbackReframe)
      previousReframes analysis effectiveLayer
  if isDuplicateReframe reframe1 previousReframes then
    if groundingMode then dupReplacementGrounding else dupReplacementPause
  else reframe1

/-- The question pipeline of `ensureAllLayers`: take the model's question
(silence by default), blank it for CALM/LISTEN without a model question,
then `finalizeQuestion`. -/
def ensureQuestion (questionValue : Option Str) (effectiveLayer : EffectiveLayer)
    (userText : Str) (previousQuestions : List Str) (groundingMode : Bool)
    (lastQuestionType : QType) (intent : Intent) : Str :=
  let fallbackQuestion : Str := []
  let rawQuestion :=
    match questionValue with
    | some s => trimChars s
    | none => fallbackQuestion
  let finalRawQuestion :=
    if (intent = Intent.LISTEN ∨ intent = Intent.CALM) ∧ ¬strFieldNonBlank questionValue
    then [] else rawQuestion
  finalizeQuestion finalRawQuestion effectiveLayer userText previousQuestions
    groundingMode lastQuestionType

/-- `ensureAllLayers` from `route.ts`, field by field. -/
def ensureAllLayers (parsed : ParsedResp) (analysis : AnalysisO)
    (effectiveLayer : EffectiveLayer) (userText : Str)
    (previousReframes previousQuestions : List Str)
    (frozenThoughtPattern previousDistortion : Option Str)
    (groundingMode : Bool) (lastQuestionType : QType) (intent : Intent)
    (rnd : Rnd) : EnsureResult :=
  let icebergLayer := icebergOf effectiveLayer
  let snippet := (trimChars userText).take 90
  let snippetIsShort := snippet.length < 25
  let acknowledgmentOptions : List Str :=
    if effectiveLayer = EffectiveLayer.CORE_WOUND then
      [S "Ouch. That’s heavy to carry.",
       S "That cuts deep.",
       S "That’s a painful place to be — and you’re naming it.",
       if snippetIsShort then S "\"" ++ snippet ++ S "\" — yeah. That hurts."
       else S "I get why this feels so sharp."]
    else
      [S "Okay.",
       S "Yeah — that makes sense.",
       S "Got it.",
       if snippetIsShort then S "\"" ++ snippet ++ S "\" — noted."
       else S "Thanks for putting words to it."]
  let fallbackAcknowledgment := pickR rnd.ack acknowledgmentOptions
  let isRepeatedEffort := detectRepeatedEffort userText
  let patternNoteOptions : List Str :=
    if groundingMode then [[]]
    else if effectiveLayer = EffectiveLayer.CORE_WOUND then
      [S "That belief shows up fast when the pressure hits.",
       S "There’s a deep fear driving this.",
       S "This lands at identity-level, not just a passing thought."]
    else if isRepeatedEffort then
      [S "This sounds less like a distortion and more like exhaustion.",
       S "When effort keeps hitting walls, the mind reaches for a harsh explanation."]
    else
      [S "When the stakes feel high, the mind tries to “solve” it by predicting outcomes.",
       S "When you’re depleted, thoughts get more absolute."]
  let priorNotesPool := previousQuestions ++ previousReframes
  let fallbackPatternNote0 := pickR rnd.note patternNoteOptions
  let fallbackPatternNote :=
    if ¬fallbackPatternNote0.isEmpty ∧
        isDuplicatePatternNote fallbackPatternNote0 priorNotesPool then
      match patternNoteOptions.find?
          (fun n => !n.isEmpty && !isDuplicatePatternNote n priorNotesPool) with
      | some alt => alt
      | none => fallbackPatternNote0
    else fallbackPatternNote0
  let coreWound := lowerL (getDS analysis.core_wound [])
  let underlyingFear := lowerL (getDS analysis.underlying_fear [])
  let isAbandonment :=
    containsB coreWound (S "love") || containsB coreWound (S "alon") ||
    containsB underlyingFear (S "love") || containsB underlyingFear (S "alon")
  let isFailure :=
    containsB coreWound (S "fail") || containsB coreWound (S "enough") ||
    containsB underlyingFear (S "fail") || containsB underlyingFear (S "enough")
  let fallbackReframeOptions : List Str :=
    if effectiveLayer = EffectiveLayer.CORE_WOUND then
      if isAbandonment then [S "That fear is real — but it doesn’t mean you’re unlovable."]
      else if isFailure then
        [S "Not meeting expectations isn’t proof you’re a disappointment — it’s pressure talking."]
      else
        [S "A painful moment can shake your confidence — but it still doesn’t get to decide your worth.",
         S "It feels true right now — but pressure can make it feel bigger than it is."]
    else if isRepeatedEffort then
      [S "Effort without results doesn’t erase the effort. Timing and constraints are real.",
       S "The harsh conclusion isn’t the only explanation here."]
    else
      [S "The feeling is real — but the conclusion might be harsher than the facts support.",
       S "It can make emotional sense and still not be the full picture."]
  let fallbackReframe :=
    if groundingMode then S "You don’t have to solve everything right now — just take the next breath."
    else pickR rnd.refr fallbackReframeOptions
  let fallbackEncouragement :=
    if groundingMode then S "Taking care of yourself is valid." else []
  let acknowledgment := strFieldOr parsed.acknowledgment fallbackAcknowledgment
  let thoughtPattern : Str :=
    ensureThoughtPattern parsed effectiveLayer userText frozenThoughtPattern
      previousDistortion groundingMode intent
  let patternNote0 := getDS parsed.patternNote (getDS parsed.distortionExplanation fallbackPatternNote)
  let patternNote :=
    if ¬groundingMode then
      if effectiveLayer = EffectiveLayer.CORE_WOUND then
        let c := compactOneSentence patternNote0
        if c.isEmpty then fallbackPatternNote else c
      else
        let c := compactTwoSentences patternNote0
        if c.isEmpty then fallbackPatternNote else c
    else []
  let reframe :=
    ensureReframe parsed.reframe fallbackReframe previousReframes analysis
      effectiveLayer groundingMode
  let question :=
    ensureQuestion parsed.question effectiveLayer userText previousQuestions
      groundingMode lastQuestionType intent
  let encouragement := strFieldOr parsed.encouragement fallbackEncouragement
  { acknowledgment := acknowledgment
    thoughtPattern := thoughtPattern
    patternNote := patternNote
    reframe := reframe
    question := question
    encouragement := encouragement
    content := acknowledgment
    distortionType := thoughtPattern
    distortionExplanation := patternNote
    probingQuestion := question
    icebergLayer := icebergLayer
    layerInsight := getDS analysis.core_wound (getDS analysis.underlying_fear []) }

-- ## Memory hydration (`hydrateMemoryFromHistory`)

def hydrateStep (jp : Str → Option ParsedResp) (acc : List Str × List Str)
    (m : ChatMessage) : List Str × List Str :=
  let (qs, rs) := acc
  if m.content.isEmpty then (qs, rs)
  else
    match (parseAIJSONg jp m.content).toOption with
    | none => (qs, rs)
    | some p =>
      let q := getDS p.question (getDS p.probingQuestion [])
      let r := getDS p.reframe []
      let qs1 :=
        if ¬q.isEmpty ∧ ¬(trimChars q).isEmpty ∧ qs.length < 25 then qs ++ [trimChars q] else qs
      let rs1 :=
        if ¬r.isEmpty ∧ ¬(trimChars r).isEmpty ∧ rs.length < 25 then rs ++ [trimChars r] else rs
      (qs1, rs1)

def takeLastM (l : List ChatMessage) (n : Nat) : List ChatMessage := l.drop (l.length - n)

def hydrateMemoryFromHistory (jp : Str → Option ParsedResp)
    (conversationHistory : List ChatMessage)
    (previousQuestions previousReframes : List Str) : List Str × List Str :=
  let recentAssistant :=
    takeLastM (conversationHistory.filter (fun m => m.role = Role.assistant)) 10
  recentAssistant.foldl (hydrateStep jp) (previousQuestions, previousReframes)

-- ## Crisis short-circuit payload (identical in both files)

structure CrisisOut where
  acknowledgment : Str
  thoughtPattern : Str
  patternNote : Str
  reframe : Str
  question : Str
  encouragement : Str
  probingQuestion : Str
  icebergLayer : Str
  layerInsight : Str
  isCrisisResponse : Bool
deriving DecidableEq, Repr

/-- The fixed safety payload; `gen` is `generateCrisisResponse(HIGH)` from the
external crisis-detection module. -/
def crisisPayload (gen : Str) : CrisisOut :=
  { acknowledgment :=
      S "You're sharing something really serious, and I want to make sure you get the right support."
    thoughtPattern := S "Crisis Response"
    patternNote := S "Right now your safety is the priority."
    reframe := S "This moment doesn't define you. There are people trained to help."
    question := S "Would you like me to connect you with someone who can help right now?"
    encouragement := gen
    probingQuestion := S "Would you like to talk about what's bringing these feelings up?"
    icebergLayer := S "surface"
    layerInsight := S "Your safety matters most right now."
    isCrisisResponse := true }

-- ## Progress arithmetic

structure Progress where
  score : Nat
  surface : Nat
  trig : Nat
  emo : Nat
  core : Nat
deriving DecidableEq, Repr

/-- Progress block of `runEngine.ts` (lines 553–562): `coreBelief` is the
constant 60 whenever a core belief was detected. -/
def runEngineProgress (turnCount : Nat) (detected : Bool) : Progress :=
  let progressTurn := if detected then max turnCount 7 else turnCount
  { score := min (progressTurn * 12) 100
    surface := min (progressTurn * 25) 100
    trig := min ((progressTurn - 1) * 30) 100
    emo := min ((progressTurn - 2) * 35) 100
    core := if detected then 60 else min ((progressTurn - 4) * 30) 100 }

/-- Progress block of the `route.ts` success path (lines 1285–1294):
`coreBelief` is computed and then raised to at least 60 on detection. -/
def routeProgressSuccess (turnCount : Nat) (detected : Bool) : Progress :=
  let t := if detected then max turnCount 7 else turnCount
  let core0 := min ((t - 4) * 30) 100
  { score := min (t * 12) 100
    surface := min (t * 25) 100
    trig := min ((t - 1) * 30) 100
    emo := min ((t - 2) * 35) 100
    core := if detected then max core0 60 else core0 }

/-- Progress block of the `route.ts` model-failure fallback (lines 1213–1223). -/
def routeProgressFallback (turnCount : Nat) (detected : Bool) : Progress :=
  let t := if detected then max turnCount 7 else turnCount
  { score := min (t * 12) 100
    surface := min (t * 25) 100
    trig := min ((t - 1) * 30) 100
    emo := min ((t - 2) * 35) 100
    core := if detected then 60 else min ((t - 4) * 30) 100 }

-- ## Core-belief pattern banks

def litX (pres tails : List String) : List Str :=
  pres.flatMap (fun p => tails.map (fun t => S (p ++ t)))

def lit3 (pres seps tails : List String) : List Str :=
  pres.flatMap (fun p => seps.flatMap (fun s => tails.map (fun t => S (p ++ s ++ t))))

def notAlts : List String :=
  ["built", "made", "cut out", "good", "smart", "capable", "worthy", "enough",
   "lovable", "deserving"]

def amAlts : List String :=
  ["a failure", "worthless", "hopeless", "broken", "fraud", "burden", "loser",
   "mess", "disappointment", "undesirable"]

def neverAlts : List String := ["be", "find", "get", "have", "become", "amount"]

/-- The `coreBeliefPatterns` bank of `runEngine.ts` (6 regexes), expanded to
the substrings the case-insensitive regexes match. -/
def coreBeliefLitsE : List Str :=
  litX ["i am not ", "i'm not "] notAlts ++
  litX ["i am ", "i'm "] amAlts ++
  litX ["i will never ", "ill never ", "i'll never "] neverAlts

def coreBeliefMatchE (msg : Str) : Bool :=
  coreBeliefLitsE.any (containsB (lowerL msg))

/-- The `coreBeliefPatterns` bank of `route.ts` (30 regexes), expanded to the
substrings the case-insensitive regexes match. -/
def coreBeliefLitsR : List Str :=
  litX ["i am not ", "i'm not "] notAlts ++
  litX ["i am ", "i'm "] amAlts ++
  litX ["i can't "] ["do", "be", "handle", "figure", "seem to", "ever"] ++
  lit3 ["i don't ", "i do not "] ["deserve", "belong", "matter", "fit in"] [""] ++
  litX ["i will never ", "ill never ", "i'll never "] neverAlts ++
  lit3 ["nothing i "] ["do", "try"] [" matters", " works", " is enough", " ever"] ++
  lit3 ["no one", "noone", "no-one", "nobody"]
    ["'s", " is", " will", " would", " can", " going to", " gonna"]
    [" love", " want", " care", " stay", " be there"] ++
  [S "no one will ever", S "nobody will ever"] ++
  litX ["everyone "] ["leaves", "leaving", "left", "abandons"] ++
  litX ["they're all ", "theyre all "] ["going to leave", "gonna leave"] ++
  lit3 ["i'll ", "ill "] ["always", "forever"] [" be alone", " be lonely", " be single"] ++
  [S "i will die alone"] ++
  [S "i've always been", S "ive always been"] ++
  litX ["i always "] ["fail", "mess up", "screw up", "ruin", "destroy"] ++
  lit3 ["everything i "] ["do", "try"] [" fails", " is wrong", " is not enough"] ++
  litX ["that means i'm ", "that means im "] ["not", "a", "an"] ++
  [S "that's just who i am", S "thats just who i am"] ++
  lit3 ["i don't "] ["have any", "have no"] [" worth", " value", " purpose"] ++
  lit3 ["i "] ["have no", "don't have any"] [" business", " right", " place"] ++
  lit3 ["i feel ", "i think ", "i believe "] ["like i'm ", "like im ", "i'm ", "im "]
    ["not", "a", "an"] ++
  [S "i don't believe in myself", S "i don't believe in me"] ++
  litX ["what's ", "whats "] ["wrong with me", "the matter with me"] ++
  lit3 ["why "] ["can't", "do", "am"] [" i not", " i never", " i always"] ++
  [S "i give up", S "i quit", S "i can't do this anymore"]

def coreBeliefMatchR (msg : Str) : Bool :=
  coreBeliefLitsR.any (containsB (lowerL msg))

/-- The shared turn-threshold/override ternary computing the effective layer. -/
def effectiveLayerOf (detected : Bool) (turnCount : Nat) : EffectiveLayer :=
  if detected then .CORE_WOUND
  else if turnCount ≤ 2 then .SURFACE
  else if turnCount ≤ 4 then .TRANSITION
  else if turnCount ≤ 6 then .EMOTION
  else .CORE_WOUND

-- ## `runEngine` (the exported engine core of `runEngine.ts`)

/-- Oracle for `runEngine`'s external calls: the crisis checker's verdict,
`generateCrisisResponse(HIGH)`, and the combined outcome of each model call
followed by `parseAIJSON` (the single immediate retry is folded into the
oracle: `none` means both attempts failed to produce a parsable object). -/
structure EOracle where
  crisisHigh : Bool
  genCrisis : Str := []
  analysisParsed : Option AnalysisO := none
  responseParsed : Option ParsedResp := none
deriving Repr

/-- The non-crisis return object of `runEngine` (prompt strings and the
`_meta.provider/model/reasons` observability fields are not modelled). -/
structure REOut where
  acknowledgment : Str
  thoughtPattern : Str
  patternNote : Str
  reframe : Str
  question : Str
  encouragement : Str
  probingQuestion : Str
  icebergLayer : Str
  layerInsight : Str
  groundingMode : Bool
  groundingTurns : Int
  progress : Progress
  metaTurn : Nat
  metaLayer : EffectiveLayer
  metaCoreBeliefDetected : Bool
  metaIntent : Intent
  metaDecision : EngineDecision
deriving DecidableEq, Repr

inductive REResult where
  | crisis (payload : CrisisOut)
  | normal (out : REOut)
deriving DecidableEq, Repr

/-- `runEngine` from `runEngine.ts`.  `userMessage` is the sanitized text the
external Input Validator produced (invalid input throws before this logic). -/
def runEngineE (userMessage : Str) (conversationHistory : List ChatMessage)
    (sessionContext : Option SessionContext) (orc : EOracle) : REResult :=
  let sanitizedMessage := userMessage
  if orc.crisisHigh then .crisis (crisisPayload orc.genCrisis)
  else
    let turnCount := conversationHistory.length / 2 + 1
    let intent := resolveIntent sessionContext
    let gm := isInGroundingModeE sessionContext sanitizedMessage
    let analysis := orc.analysisParsed.getD defaultAnalysis
    let userRevealedCoreBelief := coreBeliefMatchE sanitizedMessage
    let effectiveLayer := effectiveLayerOf userRevealedCoreBelief turnCount
    let decision := decideEngineState sanitizedMessage analysis intent gm.1
    let parsed := orc.responseParsed
    let acknowledgment :=
      getDS (parsed.bind (·.acknowledgment)) (S "Thanks for sharing that.")
    let question :=
      if decision.askQuestion then trimChars (getDS (parsed.bind (·.question)) []) else []
    .normal
      { acknowledgment := acknowledgment
        thoughtPattern :=
          getDS (parsed.bind (·.thoughtPattern)) (getDS (parsed.bind (·.distortionType)) [])
        patternNote :=
          getDS (parsed.bind (·.patternNote)) (getDS (parsed.bind (·.distortionExplanation)) [])
        reframe := getDS (parsed.bind (·.reframe)) []
        question := question
        encouragement := getDS (parsed.bind (·.encouragement)) []
        probingQuestion := question
        icebergLayer := icebergOf effectiveLayer
        layerInsight :=
          getDS (parsed.bind (·.layerInsight))
            (getDS analysis.core_wound (getDS analysis.underlying_fear []))
        groundingMode := gm.1
        groundingTurns := gm.2
        progress := runEngineProgress turnCount userRevealedCoreBelief
        metaTurn := turnCount
        metaLayer := effectiveLayer
        metaCoreBeliefDetected := userRevealedCoreBelief
        metaIntent := intent
        metaDecision := decision }

-- ## The `POST` handler of `route.ts` (auth/rate-limit plumbing aside)

/-- Oracle for the route's external calls.  `jp` is the platform `JSON.parse`
restricted to the fields the code reads; `responseContent`/`regenContent` are
the text of the phase-2 call (after its one retry) and of the regeneration
call; `rndA`/`rndB` feed the `Math.random()` draws of the two possible
`ensureAllLayers` invocations. -/
structure ROracle where
  crisisHigh : Bool
  genCrisis : Str := []
  analysisParsed : Option AnalysisO := none
  responseContent : Option Str := none
  jp : Str → Option ParsedResp := fun _ => none
  regenContent : Option Str := none
  rndA : Rnd := {}
  rndB : Rnd := {}

/-- The regeneration decision of the `POST` success path: keep the sanitized
`base` output unless the quality gate fires and the one regeneration call
produced a parsable object, in which case that object is re-sanitized. -/
def pickComplete (base : EnsureResult) (regenParsed : Option ParsedResp)
    (redo : ParsedResp → EnsureResult) (previousReframes previousQuestions : List Str) :
    EnsureResult :=
  if needsRegeneration base.reframe base.question base.encouragement
      previousReframes previousQuestions then
    match regenParsed with
    | some p => redo p
    | none => base
  else base

structure PostOut where
  e : EnsureResult
  progress : Progress
  groundingMode : Bool
  groundingTurns : Int
  metaTurn : Nat
  metaLayer : EffectiveLayer
deriving DecidableEq, Repr

inductive PostResult where
  | crisis (payload : CrisisOut)
  | normal (out : PostOut)
deriving DecidableEq, Repr

/-- The previous-question/previous-reframe lists the route works with
(session context plus hydration from history). -/
def routePrevLists (jp : Str → Option ParsedResp) (conversationHistory : List ChatMessage)
    (sessionContext : Option SessionContext) : List Str × List Str :=
  hydrateMemoryFromHistory jp conversationHistory
    ((sessionContext.bind (·.previousQuestions)).getD [])
    ((sessionContext.bind (·.previousReframes)).getD [])

/-- The `POST` body of `route.ts` from the crisis check onward. -/
def postOutput (userMessage : Str) (conversationHistory : List ChatMessage)
    (sessionContext : Option SessionContext) (orc : ROracle) : PostResult :=
  let sanitizedMessage := userMessage
  if orc.crisisHigh then .crisis (crisisPayload orc.genCrisis)
  else
    let turnCount := conversationHistory.length / 2 + 1
    let intent := resolveIntent sessionContext
    let gm := isInGroundingModeR sessionContext sanitizedMessage
    let analysis := orc.analysisParsed.getD defaultAnalysis
    let userRevealedCoreBelief := coreBeliefMatchR sanitizedMessage
    let effectiveLayer := effectiveLayerOf userRevealedCoreBelief turnCount
    let prev := routePrevLists orc.jp conversationHistory sessionContext
    let previousQuestions := prev.1
    let previousReframes := prev.2
    let previousDistortion := (sessionContext.bind (·.previousDistortions)).bind (·.head?)
    let lastQuestion := (((sessionContext.bind (·.previousQuestions)).getD []).head?).getD []
    let lastQuestionType : QType :=
      if isChoiceQuestionText lastQuestion then .choice
      else if ¬lastQuestion.isEmpty then .openQ
      else .blank
    let frozenThoughtPattern : Option Str :=
      if effectiveLayer = EffectiveLayer.CORE_WOUND then
        some (normalizeThoughtPattern
          ((((sessionContext.bind (·.previousDistortions)).bind (·.head?))).getD (S "Core Belief")))
      else none
    match orc.responseContent with
    | none =>
      let regenParsed := orc.regenContent.bind (fun c => (parseAIJSONg orc.jp c).toOption)
      let fb := ensureAllLayers (regenParsed.getD emptyParsed) analysis effectiveLayer
        sanitizedMessage previousReframes previousQuestions frozenThoughtPattern
        previousDistortion gm.1 lastQuestionType intent orc.rndA
      .normal
        { e := fb
          progress := routeProgressFallback turnCount userRevealedCoreBelief
          groundingMode := gm.1
          groundingTurns := gm.2
          metaTurn := turnCount
          metaLayer := effectiveLayer }
    | some content =>
      let parsed := (parseAIJSONg orc.jp content).toOption
      let base := ensureAllLayers (parsed.getD emptyParsed) analysis effectiveLayer
        sanitizedMessage previousReframes previousQuestions frozenThoughtPattern
        previousDistortion gm.1 lastQuestionType intent orc.rndA
      let completeResponse :=
        pickComplete base (orc.regenContent.bind (fun c => (parseAIJSONg orc.jp c).toOption))
          (fun regenParsed =>
            ensureAllLayers regenParsed analysis effectiveLayer sanitizedMessage
              previousReframes previousQuestions frozenThoughtPattern previousDistortion
              gm.1 lastQuestionType intent orc.rndB)
          previousReframes previousQuestions
      .normal
        { e := completeResponse
          progress := routeProgressSuccess turnCount userRevealedCoreBelief
          groundingMode := gm.1
          groundingTurns := gm.2
          metaTurn := turnCount
          metaLayer := effectiveLayer }

-- ## Accessors used by the claims

def PostResult.thoughtPatternF : PostResult → Str
  | .crisis p => p.thoughtPattern
  | .normal o => o.e.thoughtPattern

def PostResult.reframeF : PostResult → Str
  | .crisis p => p.reframe
  | .normal o => o.e.reframe

def PostResult.questionF : PostResult → Str
  | .crisis p => p.question
  | .normal o => o.e.question

def PostResult.probingF : PostResult → Str
  | .crisis p => p.probingQuestion
  | .normal o => o.e.probingQuestion

def PostResult.layerF : PostResult → Option EffectiveLayer
  | .crisis _ => none
  | .normal o => some o.metaLayer

def PostResult.isCrisisF : PostResult → Bool
  | .crisis _ => true
  | .normal _ => false

def REResult.questionF : REResult → Str
  | .crisis p => p.question
  | .normal o => o.question

def REResult.probingF : REResult → Str
  | .crisis p => p.probingQuestion
  | .normal o => o.probingQuestion

def REResult.thoughtPatternF : REResult → Str
  | .crisis p => p.thoughtPattern
  | .normal o => o.thoughtPattern

def REResult.layerF : REResult → Option EffectiveLayer
  | .crisis _ => none
  | .normal o => some o.metaLayer

def REResult.progressF : REResult → Option Progress
  | .crisis _ => none
  | .normal o => some o.progress

def REResult.isCrisisF : REResult → Bool
  | .crisis _ => true
  | .normal _ => false

-- # The claims

set_option maxRecDepth 40000

-- ## C3: crisis short-circuit

/-- C3: whenever the external Crisis Lexicon Checker reports severity HIGH,
both the shared engine core and the reframe route return the fixed safety
payload (whose `_isCrisisResponse` is `true`) — an output that is a constant,
equal for every message, history, session context, model responses and
random draws, so every downstream component is skipped and no model call can
influence the result. -/
theorem C3_crisis_short_circuit (msg : Str) (hist : List ChatMessage)
    (ctx : Option SessionContext) (orcE : EOracle) (orcR : ROracle)
    (hE : orcE.crisisHigh = true) (hR : orcR.crisisHigh = true) :
    runEngineE msg hist ctx orcE = REResult.crisis (crisisPayload orcE.genCrisis) ∧
    postOutput msg hist ctx orcR = PostResult.crisis (crisisPayload orcR.genCrisis) ∧
    (crisisPayload orcE.genCrisis).isCrisisResponse = true := by
  refine ⟨?_, ?_, rfl⟩
  · unfold runEngineE; rw [hE]; simp
  · unfold postOutput; rw [hR]; simp

/-- C3 witness: the crisis short circuit at a concrete input. -/
theorem C3_witness :
    runEngineE (S "i feel awful") [] none { crisisHigh := true } =
      REResult.crisis (crisisPayload []) ∧
    postOutput (S "i feel awful") [] none { crisisHigh := true } =
      PostResult.crisis (crisisPayload []) ∧
    (crisisPayload ([] : Str)).isCrisisResponse = true :=
  C3_crisis_short_circuit (S "i feel awful") [] none
    { crisisHigh := true } { crisisHigh := true } rfl rfl

-- ## C10: probingQuestion mirrors question except in the crisis payload

theorem ensure_probing_eq_question (parsed : ParsedResp) (analysis : AnalysisO)
    (layer : EffectiveLayer) (userText : Str) (prevR prevQ : List Str)
    (fro pd : Option Str) (g : Bool) (lastQT : QType) (intent : Intent) (rnd : Rnd) :
    (ensureAllLayers parsed analysis layer userText prevR prevQ fro pd g lastQT intent rnd).probingQuestion =
    (ensureAllLayers parsed analysis layer userText prevR prevQ fro pd g lastQT intent rnd).question := rfl

theorem pickComplete_probing (base : EnsureResult) (regen : Option ParsedResp)
    (redo : ParsedResp → EnsureResult) (prevR prevQ : List Str)
    (hb : base.probingQuestion = base.question)
    (hr : ∀ p, (redo p).probingQuestion = (redo p).question) :
    (pickComplete base regen redo prevR prevQ).probingQuestion =
    (pickComplete base regen redo prevR prevQ).question := by
  unfold pickComplete
  split
  · cases regen with
    | none => exact hb
    | some p => exact hr p
  · exact hb

/-- C10: in every output of the normal (non-crisis) pipeline — in the shared
engine core and in the reframe route, on every branch (model failure,
regeneration, success) — the back-compat field `probingQuestion` is
string-equal to `question`; only the fixed crisis payload sets the two
fields to different strings. -/
theorem C10_probing_equals_question (msg : Str) (hist : List ChatMessage)
    (ctx : Option SessionContext) (orcE : EOracle) (orcR : ROracle) (g : Str)
    (hE : orcE.crisisHigh = false) (hR : orcR.crisisHigh = false) :
    (runEngineE msg hist ctx orcE).probingF = (runEngineE msg hist ctx orcE).questionF ∧
    (postOutput msg hist ctx orcR).probingF = (postOutput msg hist ctx orcR).questionF ∧
    (crisisPayload g).probingQuestion ≠ (crisisPayload g).question := by
  refine ⟨?_, ?_, ?_⟩
  · unfold runEngineE; rw [hE]; simp [REResult.probingF, REResult.questionF]
  · unfold postOutput; rw [hR]
    simp only [Bool.false_eq_true, if_false]
    cases hrc : orcR.responseContent with
    | none => simp [PostResult.probingF, PostResult.questionF, ensure_probing_eq_question]
    | some c =>
      simp only [PostResult.probingF, PostResult.questionF]
      exact pickComplete_probing _ _ _ _ _ (ensure_probing_eq_question _ _ _ _ _ _ _ _ _ _ _ _)
        (fun p => ensure_probing_eq_question _ _ _ _ _ _ _ _ _ _ _ _)
  · simp only [crisisPayload]; decide

/-- C10 witness: a concrete non-crisis request on each pipeline. -/
theorem C10_witness :
    (runEngineE (S "i am stressed") [] none { crisisHigh := false }).probingF =
      (runEngineE (S "i am stressed") [] none { crisisHigh := false }).questionF ∧
    (postOutput (S "i am stressed") [] none { crisisHigh := false }).probingF =
      (postOutput (S "i am stressed") [] none { crisisHigh := false }).questionF ∧
    (crisisPayload ([] : Str)).probingQuestion ≠ (crisisPayload ([] : Str)).question :=
  C10_probing_equals_question (S "i am stressed") [] none
    { crisisHigh := false } { crisisHigh := false } [] rfl rfl

-- ## C7: the grounding-mode state machine

/-- Modelled from the spec: the grounding-mode state machine of spec
section 4.3, as a step function on the `(groundingMode, groundingTurns)`
state and the phrase-match signal. -/
def specGroundingStep (wasMode : Bool) (prevTurns : Int) (phrase : Bool) : Bool × Int :=
  if phrase then (true, 1)
  else if wasMode = true ∧ prevTurns < 3 then (true, prevTurns + 1)
  else (false, 0)

/-- C7: both copies of the grounding-mode tracker implement exactly the
claimed state machine — a grounding phrase forces `(true, 1)` unconditionally
(re-entry resets the counter), otherwise a live mode with fewer than 3 turns
increments, and everything else decays to `(false, 0)`; in particular from
`(true, 3)` with no grounding phrase the next state is `(false, 0)`. -/
theorem C7_grounding_machine :
    (∀ (ctx : Option SessionContext) (text : Str),
      isInGroundingModeE ctx text =
        specGroundingStep ((ctx.bind (·.groundingMode)).getD false)
          ((ctx.bind (·.groundingTurns)).getD 0) (userChoseGroundingE text)) ∧
    (∀ (ctx : Option SessionContext) (text : Str),
      isInGroundingModeR ctx text =
        specGroundingStep ((ctx.bind (·.groundingMode)).getD false)
          ((ctx.bind (·.groundingTurns)).getD 0) (userChoseGroundingR text)) ∧
    (∀ (ctx : Option SessionContext) (text : Str),
      userChoseGroundingR text = true → isInGroundingModeR ctx text = (true, 1)) ∧
    isInGroundingModeR
      (some { groundingMode := some true, groundingTurns := some 3 }) (S "hello") = (false, 0) ∧
    userChoseGroundingR (S "hello") = false := by
  refine ⟨?_, ?_, ?_, by decide, by decide⟩
  · intro ctx text
    unfold isInGroundingModeE specGroundingStep
    split_ifs <;> simp_all
  · intro ctx text
    unfold isInGroundingModeR specGroundingStep
    split_ifs <;> simp_all
  · intro ctx text h
    unfold isInGroundingModeR
    rw [h]
    simp

/-- C7 witness: a grounding phrase re-enters the mode with the counter reset
to 1 even from a live `(true, 2)` state. -/
theorem C7_witness :
    userChoseGroundingR (S "can we take a break") = true ∧
    isInGroundingModeR (some { groundingMode := some true, groundingTurns := some 2 })
      (S "can we take a break") = (true, 1) :=
  ⟨by decide, C7_grounding_machine.2.2.1 _ _ (by decide)⟩

-- ## C9: the permissive JSON parser's no-brace fallback

/-- C9: on input `"hello"` — no recoverable JSON, no brace anywhere — and any
`JSON.parse` oracle that rejects it, `parseAIJSON` does not return `null`: it
falls off the end of the function and yields `undefined`, contradicting its
own declared return type `Record<string, unknown> | null`. -/
theorem C9_parse_no_brace (jp : Str → Option ParsedResp) (h : jp (S "hello") = none) :
    parseAIJSONg jp (S "hello") = JParse.undef ∧
    parseAIJSONg jp (S "hello") ≠ JParse.nul := by
  unfold parseAIJSONg
  rw [h]
  exact ⟨rfl, by intro hx; exact nomatch hx⟩

/-- C9 witness: the always-failing parse oracle at the failing input. -/
theorem C9_witness :
    (fun _ : Str => (none : Option ParsedResp)) (S "hello") = none ∧
    parseAIJSONg (fun _ : Str => (none : Option ParsedResp)) (S "hello") = JParse.undef :=
  ⟨rfl, (C9_parse_no_brace (fun _ => none) rfl).1⟩

-- ## C4: the high-arousal score

theorem foldl_count_q (p : Str → Bool) :
    ∀ (l : List Str) (a : ℚ),
      l.foldl (fun sc m => if p m then sc + 1 else sc) a = a + ((l.filter p).length : ℚ)
  | [], a => by simp
  | x :: xs, a => by
    by_cases h : p x = true
    · simp only [List.foldl_cons, h, if_true, List.filter_cons_of_pos h,
        List.length_cons, foldl_count_q p xs (a + 1)]
      push_cast
      ring
    · simp only [List.foldl_cons, h, Bool.false_eq_true, if_false,
        List.filter_cons_of_neg (by simpa using h), foldl_count_q p xs a]

/-- Modelled from the spec: the arousal formula as the claim states it —
only the marker count divided by 3, both half-point bonuses added after the
division. -/
def specArousalScore (text : Str) : ℚ :=
  let s := lowerL text
  clamp01 (((arousalMarkers.filter (containsB s)).length : ℚ) / 3 +
    (if 2 ≤ exclCount text then (1 : ℚ)/2 else 0) +
    (if 180 < text.length && (containsB s (S "everything") || containsB s (S "nothing"))
      then (1 : ℚ)/2 else 0))

/-- C4 counterexample: on `"panic!!"` (one matched marker, two `!`), the code
divides the whole accumulated score by 3 and returns 1/2, while the claimed
formula — count divided by 3, bonus added afterwards — gives 5/6. -/
theorem C4_counterexample :
    detectHighArousal (S "panic!!") = 1/2 ∧
    specArousalScore (S "panic!!") = 5/6 ∧
    detectHighArousal (S "panic!!") ≠ specArousalScore (S "panic!!") := by
  have hcount : (arousalMarkers.filter (containsB (lowerL (S "panic!!")))).length = 1 := by
    decide
  have hexcl : exclCount (S "panic!!") = 2 := by decide
  have hlen : (S "panic!!").length = 7 := by decide
  have h1 : detectHighArousal (S "panic!!") = 1/2 := by
    simp only [detectHighArousal]
    rw [foldl_count_q, hcount, hexcl, hlen]
    norm_num [clamp01]
  have h2 : specArousalScore (S "panic!!") = 5/6 := by
    simp only [specArousalScore]
    rw [hcount, hexcl, hlen]
    norm_num [clamp01]
  refine ⟨h1, h2, ?_⟩
  rw [h1, h2]
  norm_num

/-- C4 (amended): for every input text the high-arousal score equals
`clamp01((count(matched markers) + 0.5·[≥2 "!"] + 0.5·[len>180 ∧
everything/nothing]) / 3)` — the whole sum, bonuses included, is divided by 3
before clamping. -/
theorem C4_amended_closed_form (text : Str) :
    detectHighArousal text =
      clamp01 ((((arousalMarkers.filter (containsB (lowerL text))).length : ℚ) +
        (if 2 ≤ exclCount text then (1 : ℚ)/2 else 0) +
        (if 180 < text.length &&
            (containsB (lowerL text) (S "everything") || containsB (lowerL text) (S "nothing"))
          then (1 : ℚ)/2 else 0)) / 3) := by
  simp only [detectHighArousal]
  rw [foldl_count_q]
  split_ifs <;> (congr 1; push_cast; ring)

-- ## C6: the progress projector

/-- Modelled from the spec: the progress formulas exactly as the claim
states them, including `coreBelief = max(computed, 60)` on detection. -/
def specProgress (turnCount : Nat) (detected : Bool) : Progress :=
  let t := if detected then max turnCount 7 else turnCount
  { score := min (t * 12) 100
    surface := min (t * 25) 100
    trig := min ((t - 1) * 30) 100
    emo := min ((t - 2) * 35) 100
    core := if detected then max (min ((t - 4) * 30) 100) 60 else min ((t - 4) * 30) 100 }

/-- C6 counterexample: at turn 1 with a detected core belief, `runEngine`
returns the constant 60 for `layerProgress.coreBelief`, while the claimed
formula `max(min(max(0,turn-4)·30,100),60)` (with the turn floored at 7)
gives 90; the full engine output exhibits exactly the 60. -/
theorem C6_counterexample :
    (runEngineE (S "i am a failure") [] none { crisisHigh := false }).progressF =
      some (runEngineProgress 1 true) ∧
    (runEngineProgress 1 true).core = 60 ∧
    (specProgress 1 true).core = 90 ∧
    runEngineProgress 1 true ≠ specProgress 1 true := by decide

/-- C6 (amended): the claimed formulas hold verbatim for the reframe route's
success path; `progressScore`, `surface`, `trigger` and `emotion` also hold
for `runEngine` (and the route's model-failure fallback, which equals
`runEngine`'s block), but those two paths return the constant 60 for
`coreBelief` whenever a core belief is detected instead of
`max(computed, 60)`. -/
theorem C6_amended_progress (t : Nat) (d : Bool) :
    routeProgressSuccess t d = specProgress t d ∧
    routeProgressFallback t d = runEngineProgress t d ∧
    (runEngineProgress t d).score = (specProgress t d).score ∧
    (runEngineProgress t d).surface = (specProgress t d).surface ∧
    (runEngineProgress t d).trig = (specProgress t d).trig ∧
    (runEngineProgress t d).emo = (specProgress t d).emo ∧
    (runEngineProgress t d).core = (if d then 60 else (specProgress t d).core) := by
  cases d <;> simp [routeProgressSuccess, routeProgressFallback, runEngineProgress, specProgress]

-- ## Shared machinery for the `ensureAllLayers` branch analyses

theorem pickComplete_prop (P : EnsureResult → Prop) (base : EnsureResult)
    (regen : Option ParsedResp) (redo : ParsedResp → EnsureResult) (prevR prevQ : List Str)
    (hb : P base) (hr : ∀ p, P (redo p)) :
    P (pickComplete base regen redo prevR prevQ) := by
  unfold pickComplete
  split
  · cases regen with
    | none => exact hb
    | some p => exact hr p
  · exact hb

-- ## C1: no duplicate reframes

theorem ensureReframe_fresh_or_canned (pr : Option Str) (fb : Str) (prevR : List Str)
    (an : AnalysisO) (L : EffectiveLayer) (g : Bool) :
    isDuplicateReframe (ensureReframe pr fb prevR an L g) prevR = false ∨
    ensureReframe pr fb prevR an L g = dupReplacementGrounding ∨
    ensureReframe pr fb prevR an L g = dupReplacementPause := by
  unfold ensureReframe
  by_cases h : isDuplicateReframe
      (sanitizeReframeAllLayers (getDS pr fb) prevR an L) prevR = true
  · rw [if_pos h]
    cases g with
    | false => right; right; rfl
    | true => right; left; rfl
  · rw [if_neg (by simpa using h)]
    left
    simpa using h

theorem ensureAllLayers_reframe_ok (parsed : ParsedResp) (analysis : AnalysisO)
    (layer : EffectiveLayer) (userText : Str) (prevR prevQ : List Str)
    (fro pd : Option Str) (g : Bool) (lastQT : QType) (intent : Intent) (rnd : Rnd) :
    isDuplicateReframe
      ((ensureAllLayers parsed analysis layer userText prevR prevQ fro pd g lastQT intent rnd).reframe)
      prevR = false ∨
    (ensureAllLayers parsed analysis layer userText prevR prevQ fro pd g lastQT intent rnd).reframe =
      dupReplacementGrounding ∨
    (ensureAllLayers parsed analysis layer userText prevR prevQ fro pd g lastQT intent rnd).reframe =
      dupReplacementPause :=
  ensureReframe_fresh_or_canned parsed.reframe _ prevR analysis layer g

/-- The prior reframes and a duplicate-replacement line of an earlier turn,
supplied back to the route as `sessionContext.previousReframes`. -/
def reframeX : Str := S "you are more than this result."

def ctxC1 : SessionContext := { previousReframes := some [dupReplacementPause, reframeX] }

def orcC1 : ROracle :=
  { crisisHigh := false
    responseContent := some (S "j")
    jp := fun c =>
      if c = S "j" then some { reframe := some reframeX, question := some (S "") } else none
    regenContent := none }

/-- C1 counterexample: with `previousReframes = [pause-line, X]` supplied back
in the session context, a model response whose reframe is again `X` makes the
sanitizer substitute the fixed pause line — which normalizes equal to the
already-returned first entry of `previousReframes`, and the regeneration call
fails, so the duplicate is exposed to the user. -/
theorem C1_counterexample :
    (postOutput (S "i failed the exam") [] (some ctxC1) orcC1).reframeF = dupReplacementPause ∧
    isDuplicateReframe ((postOutput (S "i failed the exam") [] (some ctxC1) orcC1).reframeF)
      ((ctxC1.previousReframes).getD []) = true := by decide

/-- C1 (amended): every reframe returned by the route either differs, after
normalization, from every reframe in the session's previous-reframe list
(session context plus history hydration), or is one of the two fixed
duplicate-replacement lines — the replacement itself, not being re-checked,
is the only way a duplicate can recur. -/
theorem C1_amended_reframe_dedup (msg : Str) (hist : List ChatMessage)
    (ctx : Option SessionContext) (orc : ROracle) (h : orc.crisisHigh = false) :
    isDuplicateReframe ((postOutput msg hist ctx orc).reframeF)
        (routePrevLists orc.jp hist ctx).2 = false ∨
    (postOutput msg hist ctx orc).reframeF = dupReplacementGrounding ∨
    (postOutput msg hist ctx orc).reframeF = dupReplacementPause := by
  unfold postOutput
  rw [h]
  simp only [Bool.false_eq_true, if_false]
  cases hrc : orc.responseContent with
  | none =>
    simp only [PostResult.reframeF]
    exact ensureAllLayers_reframe_ok _ _ _ _ _ _ _ _ _ _ _ _
  | some c =>
    simp only [PostResult.reframeF]
    apply pickComplete_prop
      (fun e => isDuplicateReframe e.reframe (routePrevLists orc.jp hist ctx).2 = false ∨
        e.reframe = dupReplacementGrounding ∨ e.reframe = dupReplacementPause)
    · exact ensureAllLayers_reframe_ok _ _ _ _ _ _ _ _ _ _ _ _
    · intro p
      exact ensureAllLayers_reframe_ok _ _ _ _ _ _ _ _ _ _ _ _

/-- C1 witness: the amended dedup property at a concrete request. -/
theorem C1_witness :
    isDuplicateReframe ((postOutput (S "i am sad") [] none { crisisHigh := false }).reframeF)
        (routePrevLists (fun _ => none) [] none).2 = false ∨
    (postOutput (S "i am sad") [] none { crisisHigh := false }).reframeF =
      dupReplacementGrounding ∨
    (postOutput (S "i am sad") [] none { crisisHigh := false }).reframeF =
      dupReplacementPause :=
  C1_amended_reframe_dedup (S "i am sad") [] none { crisisHigh := false } rfl

-- ## C2: "Core Belief" iff CORE_WOUND

theorem normCB : normalizeThoughtPattern (S "Core Belief") = S "Core Belief" := by decide

theorem coerce_ne_coreBelief (tp : Str) (L : EffectiveLayer)
    (hL : L ≠ EffectiveLayer.CORE_WOUND) :
    coerceThoughtPatternByLayer tp L ≠ S "Core Belief" := by
  simp only [coerceThoughtPatternByLayer]
  by_cases hc : (lowerL (normalizeThoughtPattern tp) == S "core belief") = true
  · rw [if_pos ⟨hL, hc⟩]
    decide
  · rw [if_neg (fun hh => hc hh.2), if_neg hL]
    intro hEq
    apply hc
    rw [hEq]
    decide

theorem adjust_ne_coreBelief (u : Str) (L : EffectiveLayer) (t : Str)
    (h : t ≠ S "Core Belief") :
    adjustDistortionForIdentityStatement u L t ≠ S "Core Belief" := by
  unfold adjustDistortionForIdentityStatement
  split
  · decide
  · exact h

theorem ensureThoughtPattern_core_frozenCB (parsed : ParsedResp) (userText : Str)
    (pd : Option Str) (intent : Intent) :
    ensureThoughtPattern parsed EffectiveLayer.CORE_WOUND userText
      (some (S "Core Belief")) pd false intent = S "Core Belief" := by
  simp only [ensureThoughtPattern]
  norm_num [optTruthy, Option.getD, normCB]

theorem ensureThoughtPattern_noncore_ne (parsed : ParsedResp) (L : EffectiveLayer)
    (userText : Str) (intent : Intent) (hL : L ≠ EffectiveLayer.CORE_WOUND) :
    ensureThoughtPattern parsed L userText
      (if L = EffectiveLayer.CORE_WOUND then some (S "Core Belief") else none)
      none false intent ≠ S "Core Belief" := by
  rw [if_neg hL]
  simp only [ensureThoughtPattern, if_neg hL]
  simp only [Bool.false_eq_true, if_false, optTruthy, Option.elim]
  split
  · decide
  · exact adjust_ne_coreBelief _ _ _ (coerce_ne_coreBelief _ _ hL)

theorem ensureThoughtPattern_core_iff (parsed : ParsedResp) (L : EffectiveLayer)
    (userText : Str) (intent : Intent) :
    (ensureThoughtPattern parsed L userText
      (if L = EffectiveLayer.CORE_WOUND then some (S "Core Belief") else none)
      none false intent = S "Core Belief") ↔ L = EffectiveLayer.CORE_WOUND := by
  by_cases hL : L = EffectiveLayer.CORE_WOUND
  · subst hL
    simp only [if_pos rfl, iff_true]
    exact ensureThoughtPattern_core_frozenCB _ _ _ _
  · exact iff_of_false (ensureThoughtPattern_noncore_ne _ _ _ _ hL) hL

theorem ensureAllLayers_tp_core_iff (parsed : ParsedResp) (analysis : AnalysisO)
    (L : EffectiveLayer) (userText : Str) (prevR prevQ : List Str)
    (lastQT : QType) (intent : Intent) (rnd : Rnd) :
    ((ensureAllLayers parsed analysis L userText prevR prevQ
        (if L = EffectiveLayer.CORE_WOUND then some (S "Core Belief") else none)
        none false lastQT intent rnd).thoughtPattern = S "Core Belief") ↔
      L = EffectiveLayer.CORE_WOUND :=
  ensureThoughtPattern_core_iff parsed L userText intent

/-- C2 counterexample: the message "I am a failure, I need to pause" matches
both a core-belief pattern (layer CORE_WOUND) and a grounding phrase
("pause"), and in grounding mode `ensureAllLayers` blanks the label — so a
returned output has effective layer CORE_WOUND with `thoughtPattern ≠ "Core
Belief"`, refuting the "always forced at CORE_WOUND" direction of the iff. -/
theorem C2_counterexample :
    (postOutput (S "I am a failure, I need to pause") [] none
      { crisisHigh := false }).layerF = some EffectiveLayer.CORE_WOUND ∧
    (postOutput (S "I am a failure, I need to pause") [] none
      { crisisHigh := false }).thoughtPatternF ≠ S "Core Belief" := by decide

/-- C2 (amended): when the request is not in grounding mode and the session
supplies no previous distortion label, the returned `thoughtPattern` equals
"Core Belief" if and only if the request's effective layer is CORE_WOUND —
on every branch of the route (model failure, regeneration, success) and for
every model output. -/
theorem C2_amended_core_iff (msg : Str) (hist : List ChatMessage)
    (ctx : Option SessionContext) (orc : ROracle) (h : orc.crisisHigh = false)
    (hg : (isInGroundingModeR ctx msg).1 = false)
    (hpd : (ctx.bind (·.previousDistortions)).bind (·.head?) = none) :
    ((postOutput msg hist ctx orc).thoughtPatternF = S "Core Belief" ↔
      (postOutput msg hist ctx orc).layerF = some EffectiveLayer.CORE_WOUND) := by
  unfold postOutput
  rw [h]
  simp only [Bool.false_eq_true, if_false]
  rw [hg, hpd]
  simp only [Option.getD_none, normCB]
  cases hrc : orc.responseContent with
  | none =>
    simp only [PostResult.thoughtPatternF, PostResult.layerF, Option.some.injEq]
    exact ensureAllLayers_tp_core_iff _ _ _ _ _ _ _ _ _
  | some c =>
    simp only [PostResult.thoughtPatternF, PostResult.layerF, Option.some.injEq]
    apply pickComplete_prop
      (fun e => (e.thoughtPattern = S "Core Belief" ↔
        effectiveLayerOf (coreBeliefMatchR msg) (hist.length / 2 + 1) = EffectiveLayer.CORE_WOUND))
    · exact ensureAllLayers_tp_core_iff _ _ _ _ _ _ _ _ _
    · intro p
      exact ensureAllLayers_tp_core_iff _ _ _ _ _ _ _ _ _

/-- C2 witness: the amended iff at a concrete non-grounding request. -/
theorem C2_witness :
    ((postOutput (S "i am worried about work") [] none { crisisHigh := false }).thoughtPatternF =
        S "Core Belief" ↔
      (postOutput (S "i am worried about work") [] none { crisisHigh := false }).layerF =
        some EffectiveLayer.CORE_WOUND) :=
  C2_amended_core_iff (S "i am worried about work") [] none { crisisHigh := false }
    rfl (by decide) rfl

-- ## C5: the "I always fail…" scenario at the primary entry point

def msgC5 : Str := S "I always fail at everything, I'm such a failure"

/-- C5 counterexample: the shared engine core `runEngine` — the exported
function matching the spec's primary-entry-point signature — has only six
core-belief patterns, none of which matches "I always fail at everything,
I'm such a failure"; at turn 1 the effective layer stays SURFACE and the
returned `thoughtPattern` is not "Core Belief". -/
theorem C5_counterexample :
    coreBeliefMatchE msgC5 = false ∧
    (runEngineE msgC5 [] none { crisisHigh := false }).layerF =
      some EffectiveLayer.SURFACE ∧
    (runEngineE msgC5 [] none { crisisHigh := false }).thoughtPatternF ≠
      S "Core Belief" := by decide

theorem ensureAllLayers_tp_frozenCB (parsed : ParsedResp) (analysis : AnalysisO)
    (userText : Str) (prevR prevQ : List Str) (pd : Option Str)
    (lastQT : QType) (intent : Intent) (rnd : Rnd) :
    (ensureAllLayers parsed analysis EffectiveLayer.CORE_WOUND userText prevR prevQ
      (some (S "Core Belief")) pd false lastQT intent rnd).thoughtPattern =
      S "Core Belief" :=
  ensureThoughtPattern_core_frozenCB parsed userText pd intent

/-- C5 (amended): in the reframe route handler — whose larger pattern bank
includes `/i always (fail|…)/` — the message "I always fail at everything,
I'm such a failure" at turn 1 is forced to layer CORE_WOUND and the returned
`thoughtPattern` is "Core Belief", for every model response. -/
theorem C5_amended_route (orc : ROracle) (h : orc.crisisHigh = false) :
    coreBeliefMatchR msgC5 = true ∧
    (postOutput msgC5 [] none orc).layerF = some EffectiveLayer.CORE_WOUND ∧
    (postOutput msgC5 [] none orc).thoughtPatternF = S "Core Belief" := by
  have hbank : coreBeliefMatchR msgC5 = true := by decide
  have hg : isInGroundingModeR none msgC5 = (false, 0) := by decide
  refine ⟨hbank, ?_, ?_⟩ <;>
  · unfold postOutput
    rw [h]
    simp only [Bool.false_eq_true, if_false, hbank, hg, Option.none_bind,
      Option.getD_none, normCB, List.length_nil]
    simp only [effectiveLayerOf, if_pos rfl, if_true]
    cases hrc : orc.responseContent with
    | none =>
      simp only [PostResult.thoughtPatternF, PostResult.layerF]
      all_goals first
        | rfl
        | exact ensureAllLayers_tp_frozenCB _ _ _ _ _ _ _ _ _
    | some c =>
      simp only [PostResult.thoughtPatternF, PostResult.layerF]
      all_goals first
        | rfl
        | (apply pickComplete_prop (fun e => e.thoughtPattern = S "Core Belief")
           · exact ensureAllLayers_tp_frozenCB _ _ _ _ _ _ _ _ _
           · intro p
             exact ensureAllLayers_tp_frozenCB _ _ _ _ _ _ _ _ _)

/-- C5 witness: the amended route behavior at a concrete oracle. -/
theorem C5_witness :
    coreBeliefMatchR msgC5 = true ∧
    (postOutput msgC5 [] none { crisisHigh := false }).layerF =
      some EffectiveLayer.CORE_WOUND ∧
    (postOutput msgC5 [] none { crisisHigh := false }).thoughtPatternF =
      S "Core Belief" :=
  C5_amended_route { crisisHigh := false } rfl

-- ## C8: no choice-question directly after a choice-question

theorem lowerL_append (a b : Str) : lowerL (a ++ b) = lowerL a ++ lowerL b :=
  List.map_append _ _ _

theorem infix_lowerL {a b : Str} (h : a <:+: b) : lowerL a <:+: lowerL b := h.map _

theorem oneSentence_inf (q : Str) : oneSentence q <:+: q := by
  simp only [oneSentence]
  split
  · exact List.infix_refl q
  · exact (trimChars_inf _).trans (firstSeg_pref q).isInfix

theorem infix_of_infix_append_q {n xs : Str} (hq : ('?' : Char) ∉ n)
    (h : n <:+: xs ++ [('?' : Char)]) : n <:+: xs := by
  obtain ⟨s, t, hst⟩ := h
  rcases List.eq_nil_or_concat t with rfl | ⟨t', c, rfl⟩
  · rw [List.append_nil] at hst
    rcases List.eq_nil_or_concat n with rfl | ⟨n', d, rfl⟩
    · exact List.nil_infix
    · exfalso
      apply hq
      simp only [List.concat_eq_append] at hst ⊢
      have hd : d = '?' := by
        have h1 := congrArg List.getLast? hst
        rw [← List.append_assoc] at h1
        simpa [List.getLast?_concat] using h1
      rw [hd]
      exact List.mem_append_right _ (List.mem_singleton_self _)
  · simp only [List.concat_eq_append] at hst
    have h2 : s ++ n ++ t' = xs := by
      have h1 := congrArg List.dropLast hst
      simp only [← List.append_assoc] at h1
      simpa [List.dropLast_concat] using h1
    exact ⟨s, t', h2⟩

theorem infix_nonempty {n b : Str} (hn : n ≠ []) (h : n <:+: b) : b ≠ [] := by
  intro hb
  subst hb
  exact hn (List.infix_nil.mp h)

/-- A choice question that is (after lowercasing) an infix of a longer text
makes the longer text a choice question too: every heuristic needle carries
over along the inclusion. -/
theorem isChoice_mono {a b : Str} (hin : lowerL a <:+: lowerL b)
    (h : isChoiceQuestionText a = true) : isChoiceQuestionText b = true := by
  simp only [isChoiceQuestionText] at h ⊢
  by_cases ha : (lowerL a).isEmpty = true
  · rw [if_pos ha] at h
    exact absurd h (by decide)
  · rw [if_neg (by simpa using ha)] at h
    have hane : lowerL a ≠ [] := by simpa [List.isEmpty_iff] using ha
    have hbne : lowerL b ≠ [] := infix_nonempty hane hin
    rw [if_neg (by simpa [List.isEmpty_iff] using hbne)]
    simp only [Bool.or_eq_true, Bool.and_eq_true] at h ⊢
    rcases h with ((h | h) | ⟨h1, h2⟩) | ⟨h1, h2⟩
    · exact Or.inl (Or.inl (Or.inl (containsB_of_inf hin h)))
    · exact Or.inl (Or.inl (Or.inr (containsB_of_inf hin h)))
    · exact Or.inl (Or.inr ⟨containsB_of_inf hin h1, containsB_of_inf hin h2⟩)
    · exact Or.inr ⟨containsB_of_inf hin h1, containsB_of_inf hin h2⟩

/-- Appending the `finalizeQuestion` question mark cannot create a choice
question: none of the heuristic needles contains `?`. -/
theorem isChoice_append_q {q one : Str} (hone : one <:+: q)
    (h : isChoiceQuestionText (one ++ S "?") = true) :
    isChoiceQuestionText q = true := by
  have hlow : lowerL (one ++ S "?") = lowerL one ++ [('?' : Char)] := by
    rw [lowerL_append]; rfl
  have key : ∀ n : Str, ('?' : Char) ∉ n →
      containsB (lowerL (one ++ S "?")) n = true → containsB (lowerL q) n = true := by
    intro n hnq hcont
    have h1 : n <:+: lowerL one ++ [('?' : Char)] := by
      rw [← hlow]; exact (containsB_iff _ _).1 hcont
    exact (containsB_iff _ _).2 ((infix_of_infix_append_q hnq h1).trans (infix_lowerL hone))
  have hqne : ∀ {w : Str}, containsB (lowerL q) w = true → w ≠ [] →
      (lowerL q).isEmpty = false := by
    intro w hw hwne
    have : lowerL q ≠ [] := infix_nonempty hwne ((containsB_iff _ _).1 hw)
    simpa [List.isEmpty_iff] using this
  simp only [isChoiceQuestionText] at h ⊢
  rw [if_neg (by rw [hlow]; simp)] at h
  simp only [Bool.or_eq_true, Bool.and_eq_true] at h
  rcases h with ((h | h) | ⟨h1, h2⟩) | ⟨h1, h2⟩
  · have hc := key _ (by decide) h
    rw [if_neg (by simp [hqne hc (by decide)])]
    simp only [Bool.or_eq_true, Bool.and_eq_true]
    exact Or.inl (Or.inl (Or.inl hc))
  · have hc := key _ (by decide) h
    rw [if_neg (by simp [hqne hc (by decide)])]
    simp only [Bool.or_eq_true, Bool.and_eq_true]
    exact Or.inl (Or.inl (Or.inr hc))
  · have hc1 := key _ (by decide) h1
    have hc2 := key _ (by decide) h2
    rw [if_neg (by simp [hqne hc1 (by decide)])]
    simp only [Bool.or_eq_true, Bool.and_eq_true]
    exact Or.inl (Or.inr ⟨hc1, hc2⟩)
  · have hc1 := key _ (by decide) h1
    have hc2 := key _ (by decide) h2
    rw [if_neg (by simp [hqne hc1 (by decide)])]
    simp only [Bool.or_eq_true, Bool.and_eq_true]
    exact Or.inr ⟨hc1, hc2⟩

theorem isChoice_of_one {q one : Str} (hone : one <:+: q)
    (hq : isChoiceQuestionText q = false) : isChoiceQuestionText one = false := by
  rcases Bool.eq_false_or_eq_true (isChoiceQuestionText one) with h | h
  · exact absurd (isChoice_mono (infix_lowerL hone) h) (by simp [hq])
  · exact h

theorem isChoice_of_one_q {q one : Str} (hone : one <:+: q)
    (hq : isChoiceQuestionText q = false) :
    isChoiceQuestionText (one ++ S "?") = false := by
  rcases Bool.eq_false_or_eq_true (isChoiceQuestionText (one ++ S "?")) with h | h
  · exact absurd (isChoice_append_q hone h) (by simp [hq])
  · exact h

def ctxC8 : SessionContext :=
  { groundingMode := some true
    groundingTurns := some 1
    previousQuestions := some [choiceQuestion] }

def orcC8 : ROracle :=
  { crisisHigh := false
    responseContent := some (S "j")
    jp := fun c =>
      if c = S "j" then
        some { reframe := some (S "you are more than this moment of fatigue.")
               question := some choiceQuestion }
      else none
    regenContent := none }

/-- C8 counterexample: the previous returned question was the fixed binary
choice question (so `lastQuestionType = 'choice'`), the session is in
grounding mode, and the model returns the same choice question — the
grounding branch of `finalizeQuestion` runs before the choice-after-choice
check and the route returns a choice question directly after a choice
question. -/
theorem C8_counterexample :
    isChoiceQuestionText
      ((((some ctxC8 : Option SessionContext).bind (·.previousQuestions)).getD []).head?.getD []) =
      true ∧
    (postOutput (S "i am tired") [] (some ctxC8) orcC8).questionF = choiceQuestion ∧
    isChoiceQuestionText ((postOutput (S "i am tired") [] (some ctxC8) orcC8).questionF) =
      true := by decide

/-- C8 (amended): when the request is not in grounding mode and the
flooded-substitution cannot fire (the layer is not CORE_WOUND, or the user
is not flooded), a request whose previous question was a choice question
(`lastQuestionType = 'choice'`) never yields a choice question from the
question finalizer, for every model question, layer and history. -/
theorem C8_amended_no_choice_after_choice (question : Str) (layer : EffectiveLayer)
    (userText : Str) (prevQ : List Str)
    (hfl : layer = EffectiveLayer.CORE_WOUND → userSeemsFlooded userText = false) :
    isChoiceQuestionText
      (finalizeQuestion question layer userText prevQ false QType.choice) = false := by
  simp only [finalizeQuestion, Bool.false_eq_true, if_false]
  split_ifs
  all_goals first
    | decide
    | (have hLc : layer = EffectiveLayer.CORE_WOUND :=
         not_not.mp ‹¬(layer ≠ EffectiveLayer.CORE_WOUND)›
       exact absurd ‹userSeemsFlooded userText = true› (by simp [hfl hLc]))
    | (have hcqf : isChoiceQuestionText (trimChars question) = false := by
         rcases Bool.eq_false_or_eq_true (isChoiceQuestionText (trimChars question)) with hb | hb
         · exact absurd ⟨trivial, hb⟩
             ‹¬(True ∧ isChoiceQuestionText (trimChars question) = true)›
         · exact hb
       first
         | exact isChoice_of_one (oneSentence_inf _) hcqf
         | exact isChoice_of_one_q (oneSentence_inf _) hcqf)

/-- C8 witness: after a choice question, a model attempt to repeat the fixed
choice question at a non-grounding SURFACE turn is silenced. -/
theorem C8_witness :
    isChoiceQuestionText
      (finalizeQuestion choiceQuestion EffectiveLayer.SURFACE (S "hello") [] false
        QType.choice) = false :=
  C8_amended_no_choice_after_choice choiceQuestion EffectiveLayer.SURFACE (S "hello") []
    (fun h => nomatch h)

end VersoEngine
